import Mathlib

/-!
# vector_add.c: the glue-library test program

A shallow embedding of
`numba/oneapi/oneapidriver/test_numba_oneapi_glue/vector_add.c`.

The program is host code that calls an external wrapper library
(`numba_oneapi_glue.h`, not part of the repository excerpt).  The library and
the C allocator are a parameter `Sys σ` of the model: every wrapper call is a
state-passing function that returns an integer error code, and the program
records each call together with the code it got in a trace.  `exit` ends the
run with a status; an out-of-bounds access to a host array ends it with
`Outcome.fault`.

Single-precision values are modelled by `F32` (NaN, signed infinities and
finite values `(-1)^s * m * 2^e`) with round-to-nearest-even addition and the
C comparison operators.
-/

namespace VectorAdd

/-! ## Single-precision floats -/

/-- IEEE-754 binary32 values.  `fin neg m e` stands for `(-1)^neg * m * 2^e`;
the values of the format are those with `m < 2^24` and `-149 ≤ e ≤ 104`. -/
inductive F32 where
  | nan : F32
  | inf (neg : Bool) : F32
  | fin (neg : Bool) (m : Nat) (e : Int) : F32
  deriving DecidableEq, Repr

namespace F32

/-- Round the exact magnitude `m * 2^e` (with `-149 ≤ e ≤ 104`) to binary32, ties to
even.  Up to 24 bits of `m` need no rounding; a rounded magnitude of `2^128` or more
becomes an infinity. -/
def round (neg : Bool) (m : Nat) (e : Int) : F32 :=
  if Nat.size m ≤ 24 then fin neg m e
  else
    let sh := Nat.size m - 24
    let q := m / 2 ^ sh
    let r := m % 2 ^ sh
    let half := 2 ^ (sh - 1)
    let q1 := if half < r ∨ (r = half ∧ q % 2 = 1) then q + 1 else q
    let q2 := if q1 = 2 ^ 24 then 2 ^ 23 else q1
    let e2 := if q1 = 2 ^ 24 then e + sh + 1 else e + sh
    if 104 < e2 then inf neg else fin neg q2 e2

/-- Conversion of an unsigned integer (`size_t`) to `float`. -/
def ofNat (n : Nat) : F32 := round false n 0

/-- The C operator `+` on `float`. -/
def add : F32 → F32 → F32
  | nan, _ => nan
  | _, nan => nan
  | inf a, inf b => if a = b then inf a else nan
  | inf a, fin _ _ _ => inf a
  | fin _ _ _, inf b => inf b
  | fin s1 m1 e1, fin s2 m2 e2 =>
    let e := min e1 e2
    let a : Int := (if s1 then -1 else 1) * ((m1 * 2 ^ (e1 - e).toNat : Nat) : Int)
    let b : Int := (if s2 then -1 else 1) * ((m2 * 2 ^ (e2 - e).toNat : Nat) : Int)
    if a + b = 0 then fin (s1 && s2) 0 e
    else round (decide (a + b < 0)) (a + b).natAbs e

/-- The C operator `==` on `float`: NaN equals nothing, `+0 == -0`. -/
def eq : F32 → F32 → Bool
  | fin s1 m1 e1, fin s2 m2 e2 =>
    let e := min e1 e2
    let a := m1 * 2 ^ (e1 - e).toNat
    let b := m2 * 2 ^ (e2 - e).toNat
    decide (a = b) && (decide (a = 0) || decide (s1 = s2))
  | inf a, inf b => decide (a = b)
  | _, _ => false

/-- The C operator `!=` on `float`. -/
def ne (x y : F32) : Bool := !(eq x y)

end F32

/-! ## Constants and handles -/

/-- `typedef enum { ON_CPU, ON_GPU } execution_ty;` -/
inductive execution_ty where
  | ON_CPU
  | ON_GPU
  deriving DecidableEq, Repr

/-- The environment handles reachable from the runtime handle:
`rt->first_cpu_env` and `rt->first_gpu_env`. -/
inductive env_t where
  | first_cpu_env
  | first_gpu_env
  deriving DecidableEq, Repr

/-- The three host arrays `float *A, *B, *C` of `buildAndExecuteKernel`. -/
inductive HostPtr where
  | A
  | B
  | C
  deriving DecidableEq, Repr

/-- `static const size_t N = 2048;` -/
def N : Nat := 2048

/-- `sizeof(float)` -/
def sizeof_float : Nat := 4

/-- Width of `size_t` arithmetic. -/
def SIZE_MAX1 : Nat := 2 ^ 64

/-- The OpenCL source held by `programSource`. -/
def programSource : String :=
  "__kernel                                                             \n" ++
  "void vecadd(__global float *A, __global float *B, __global float *C) \n" ++
  "\x7b                                                                    \n" ++
  "   int idx = get_global_id(0);                                       \n" ++
  "   C[idx] = A[idx] + B[idx];                                         \n" ++
  "\x7d"

/-- Source strings handed to the library (only `programSource` exists). -/
inductive Source where
  | programSource
  deriving DecidableEq, Repr

/-- Kernel names handed to the library (only `"vecadd"` exists). -/
inductive KernelName where
  | vecadd
  deriving DecidableEq, Repr

/-- The calls into the glue library, with the arguments the program passes.
`buf` is the index `k` of the handle `buffers[k]`; `host` is the host array
the transfer points at. -/
inductive Call where
  | create_numba_oneapi_runtime
  | destroy_numba_oneapi_runtime
  | dump_fn_runtime
  | dump_fn_env (env : env_t)
  | create_numba_oneapi_rw_mem_buffer (env : env_t) (buffsize : Nat) (buf : Fin 3)
  | write_numba_oneapi_mem_buffer_to_device (env : env_t) (buf : Fin 3) (blocking : Bool)
      (offset : Nat) (buffersize : Nat) (host : HostPtr)
  | read_numba_oneapi_mem_buffer_from_device (env : env_t) (buf : Fin 3) (blocking : Bool)
      (offset : Nat) (buffersize : Nat) (host : HostPtr)
  | create_numba_oneapi_program_from_source (env : env_t) (count : Nat) (src : Source)
  | build_numba_oneapi_program (env : env_t)
  | create_numba_oneapi_kernel (env : env_t) (name : KernelName)
  | enqueue_numba_oneapi_kernel_from_source (src : Source) (name : KernelName)
      (num_buffers : Nat) (indexSpaceSize : Nat) (workGroupSize : Nat)
  | destroy_numba_oneapi_kernel
  | destroy_numba_oneapi_program
  | destroy_numba_oneapi_rw_mem_buffer (buf : Fin 3)
  deriving DecidableEq, Repr

/-- The texts the program prints. -/
inductive Msg where
  | bufferCreationFailed
  | couldNotWrite
  | couldNotCreateProgram
  | couldNotCreateKernel
  | positionWrong (i : Nat)
  | stopValidating
  | resultsMatch
  | separator
  | executingOnCPU
  | executingOnGPU
  deriving DecidableEq, Repr

/-- The text of each message, as in the source. -/
def Msg.text : Msg → String
  | .bufferCreationFailed => "Buffer creation failed. Abort!\n"
  | .couldNotWrite => "Could not write to buffer. Abort!\n"
  | .couldNotCreateProgram => "Could not create the program. Abort!\n"
  | .couldNotCreateKernel => "Could not create the kernel. Abort!\n"
  | .positionWrong i => "Position " ++ toString i ++ " Wrong Result\n"
  | .stopValidating => "Stop validating and exit...\n"
  | .resultsMatch => "Results Match\n"
  | .separator => "\n===================================\n\n"
  | .executingOnCPU => "Executing on the first CPU device info: \n"
  | .executingOnGPU => "Executing on the first GPU device info: \n"

/-- What the program does that is visible from outside, in order. -/
inductive Event where
  | call (c : Call) (ret : Int)
  | malloc (p : HostPtr) (size : Nat) (nonNull : Bool)
  | free (p : HostPtr)
  | perror
  | stderr (m : Msg)
  | stdout (m : Msg)
  deriving DecidableEq, Repr

/-! ## The environment and the program monad -/

/-- The object an environment handle (`rt->first_cpu_env`, `rt->first_gpu_env`) points at,
as far as `main` reads it: `dump_fn` tells whether the function pointer of that name can
be called. -/
structure Env where
  dump_fn : Bool
  deriving DecidableEq, Repr

/-- The object the runtime handle `rt` points at, as far as `main` reads it: whether its
function pointer `dump_fn` can be called, and the objects behind its two environment
handles (`none` for a handle that is `NULL` or points at no object). -/
structure Runtime where
  dump_fn : Bool
  first_cpu_env : Option Env
  first_gpu_env : Option Env
  deriving DecidableEq, Repr

/-- The glue library and the C allocator, as seen by the program.
`NUMBA_ONEAPI_FAILURE` is the constant of the (absent) header.  `malloc size`
returns `none` for `NULL` and otherwise the uninitialised contents of the new
block.  `call c host` makes the wrapper call `c`; `host` is the content of the
host array the call points at (empty when it has none); the results are the
returned error code and, for a read, the floats delivered to the host array.
`rt` is the object behind the handle that `create_numba_oneapi_runtime(&rt)` has left
in `rt` (`none` when the handle is `NULL` or was not set); the library keeps that
object unchanged until `destroy_numba_oneapi_runtime`. -/
structure Sys (σ : Type) where
  NUMBA_ONEAPI_FAILURE : Int
  malloc : Nat → σ → Option (Nat → F32) × σ
  call : Call → List F32 → σ → Int × List F32 × σ
  rt : σ → Option Runtime

/-- Program state: the state of the environment, the host arrays (empty when
not allocated) and the trace of events so far. -/
structure State (σ : Type) where
  sys : σ
  mem : HostPtr → List F32
  trace : List Event

/-- How a run ends: normal return, `exit(status)`, or a crash (an access outside a host
array, a dereference of a handle that points at no object, a call through a function
pointer that cannot be called). -/
inductive Outcome (α : Type) where
  | ret (a : α)
  | exit (status : Int)
  | fault
  deriving DecidableEq, Repr

/-- Programs: state transformers that may end the run. -/
def Prog (σ α : Type) : Type := State σ → Outcome α × State σ

/-- Return a value. -/
def Prog.pure {σ α : Type} (a : α) : Prog σ α := fun s => (Outcome.ret a, s)

/-- Sequencing; `exit` and `fault` skip the rest. -/
def Prog.bind {σ α β : Type} (m : Prog σ α) (f : α → Prog σ β) : Prog σ β := fun s =>
  match m s with
  | (Outcome.ret a, s1) => f a s1
  | (Outcome.exit c, s1) => (Outcome.exit c, s1)
  | (Outcome.fault, s1) => (Outcome.fault, s1)

instance {σ : Type} : Monad (Prog σ) where
  pure := Prog.pure
  bind := Prog.bind

/-- The state with one more event at the end of the trace. -/
def State.log {σ : Type} (s : State σ) (e : Event) : State σ :=
  { sys := s.sys, mem := s.mem, trace := s.trace ++ [e] }

/-- The state at program start: no host array allocated, empty trace. -/
def State.init {σ : Type} (sys : σ) : State σ :=
  { sys := sys, mem := fun _ => [], trace := [] }

/-- Append an event to the trace. -/
def emit {σ : Type} (e : Event) : Prog σ Unit := fun s => (Outcome.ret (), s.log e)

/-- The C library function `exit`. -/
def exit {σ α : Type} (status : Int) : Prog σ α := fun s => (Outcome.exit status, s)

/-- The statement `fprintf(stderr, m)`. -/
def fprintf_stderr {σ : Type} (m : Msg) : Prog σ Unit := emit (Event.stderr m)

/-- The statement `printf(m)`. -/
def printf {σ : Type} (m : Msg) : Prog σ Unit := emit (Event.stdout m)

/-- The statement `perror("Error: ")`. -/
def perror {σ : Type} : Prog σ Unit := emit Event.perror

/-- The assignment `p = (float*)malloc(size)`; the result tells whether the pointer is
non-NULL.  A new block holds `size / sizeof(float)` floats of unspecified content. -/
def malloc {σ : Type} (S : Sys σ) (p : HostPtr) (size : Nat) : Prog σ Bool := fun s =>
  (Outcome.ret (S.malloc size s.sys).1.isSome,
    { sys := (S.malloc size s.sys).2
      mem := match (S.malloc size s.sys).1 with
        | some g => Function.update s.mem p ((List.range (size / sizeof_float)).map g)
        | none => s.mem
      trace := s.trace ++ [Event.malloc p size (S.malloc size s.sys).1.isSome] })

/-- The statement `free(p)`. -/
def free {σ : Type} (p : HostPtr) : Prog σ Unit := fun s =>
  (Outcome.ret (),
    { sys := s.sys, mem := Function.update s.mem p [], trace := s.trace ++ [Event.free p] })

/-- The read access `p[i]`. -/
def load {σ : Type} (p : HostPtr) (i : Nat) : Prog σ F32 := fun s =>
  match (s.mem p)[i]? with
  | some v => (Outcome.ret v, s)
  | none => (Outcome.fault, s)

/-- The assignment `p[i] = v`. -/
def store {σ : Type} (p : HostPtr) (i : Nat) (v : F32) : Prog σ Unit := fun s =>
  if i < (s.mem p).length then
    (Outcome.ret (), { s with mem := Function.update s.mem p ((s.mem p).set i v) })
  else (Outcome.fault, s)

/-- The handle `rt` as runtime creation left it. -/
def readRt {σ : Type} (S : Sys σ) : Prog σ (Option Runtime) := fun s =>
  (Outcome.ret (S.rt s.sys), s)

/-- The dereference `h->...` of a handle. -/
def deref {σ α : Type} : Option α → Prog σ α
  | some a => fun s => (Outcome.ret a, s)
  | none => fun s => (Outcome.fault, s)

/-- The use of a function pointer in a call `(*f)(...)`. -/
def callable {σ : Type} (f : Bool) : Prog σ Unit := fun s =>
  if f then (Outcome.ret (), s) else (Outcome.fault, s)

/-- The host array a call points at. -/
def Call.hostArg : Call → Option HostPtr
  | .write_numba_oneapi_mem_buffer_to_device _ _ _ _ _ host => some host
  | .read_numba_oneapi_mem_buffer_from_device _ _ _ _ _ host => some host
  | _ => none

/-- The number of bytes a device-to-host read may write to its host array. -/
def Call.readSize : Call → Option Nat
  | .read_numba_oneapi_mem_buffer_from_device _ _ _ _ buffersize _ => some buffersize
  | _ => none

/-- Overwrite the first floats of a host array with the floats a read of `nbytes` bytes
delivered. -/
def hostOverwrite (old data : List F32) (nbytes : Nat) : List F32 :=
  data.take (nbytes / sizeof_float) ++ old.drop (data.take (nbytes / sizeof_float)).length

/-- The host data a call passes to the library. -/
def hostData {σ : Type} (c : Call) (s : State σ) : List F32 :=
  match c.hostArg with
  | some p => s.mem p
  | none => []

/-- The error code the wrapper call `c` returns in state `s`. -/
def callRet {σ : Type} (S : Sys σ) (c : Call) (s : State σ) : Int :=
  (S.call c (hostData c s) s.sys).1

/-- The state after the wrapper call `c`: the environment has moved on, a read has
overwritten its host array, and the call is in the trace with its code. -/
def callState {σ : Type} (S : Sys σ) (c : Call) (s : State σ) : State σ :=
  { sys := (S.call c (hostData c s) s.sys).2.2
    mem := match c.hostArg, c.readSize with
      | some p, some nbytes =>
        Function.update s.mem p
          (hostOverwrite (s.mem p) (S.call c (hostData c s) s.sys).2.1 nbytes)
      | _, _ => s.mem
    trace := s.trace ++ [Event.call c (callRet S c s)] }

/-- A call of a wrapper function. -/
def callWrapper {σ : Type} (S : Sys σ) (c : Call) : Prog σ Int := fun s =>
  (Outcome.ret (callRet S c s), callState S c s)

/-- The loop `for (i = start; i < start + fuel; ++i) body(i)`. -/
def forFrom {σ : Type} (body : Nat → Prog σ Unit) : Nat → Nat → Prog σ Unit
  | _, 0 => Prog.pure ()
  | i, fuel + 1 => Prog.bind (body i) (fun _ => forFrom body (i + 1) fuel)

/-- The loop `for (i = 0; i < n; ++i) body(i)`. -/
def forLoop {σ : Type} (n : Nat) (body : Nat → Prog σ Unit) : Prog σ Unit :=
  forFrom body 0 n

/-! ## The program -/

/-- Lines 39-42: the environment handle chosen by `ex`, read from the runtime object (which
`main` has dereferenced before it calls the function). -/
def selectEnv : execution_ty → env_t
  | execution_ty.ON_CPU => env_t.first_cpu_env
  | execution_ty.ON_GPU => env_t.first_gpu_env

/-- Line 45: `datasize = sizeof(float)*N`, in `size_t` arithmetic. -/
def datasize : Nat := (sizeof_float * N) % SIZE_MAX1

/-- Lines 53-54: the body of the initialisation loop, `A[i] = i+1; B[i] = 2*(i+1);`
with the right-hand sides computed in `size_t` and converted to `float`. -/
def initBody {σ : Type} (i : Nat) : Prog σ Unit := do
  store HostPtr.A i (F32.ofNat ((i + 1) % SIZE_MAX1))
  store HostPtr.B i (F32.ofNat ((2 * ((i + 1) % SIZE_MAX1)) % SIZE_MAX1))

/-- Lines 52-55: the initialisation loop. -/
def initInput {σ : Type} : Prog σ Unit := forLoop N initBody

/-- Lines 121-125: the body of the validation loop. -/
def validateBody {σ : Type} (i : Nat) : Prog σ Unit := do
  let c ← load HostPtr.C i
  let a ← load HostPtr.A i
  if F32.ne c a then
    printf (Msg.positionWrong i)
    printf Msg.stopValidating
    exit 1

/-- Lines 119-127: the validation loop and the message after it. -/
def validate {σ : Type} : Prog σ Unit := do
  forLoop N validateBody
  printf Msg.resultsMatch

/-- Lines 130-142: release of the kernel, the program, the buffers and the host arrays. -/
def cleanup {σ : Type} (S : Sys σ) : Prog σ Unit := do
  let _ ← callWrapper S Call.destroy_numba_oneapi_kernel
  let _ ← callWrapper S Call.destroy_numba_oneapi_program
  let _ ← callWrapper S (Call.destroy_numba_oneapi_rw_mem_buffer 0)
  let _ ← callWrapper S (Call.destroy_numba_oneapi_rw_mem_buffer 1)
  let _ ← callWrapper S (Call.destroy_numba_oneapi_rw_mem_buffer 2)
  free HostPtr.A
  free HostPtr.B
  free HostPtr.C

/-- Lines 57-115: buffer creation, upload, program build, kernel creation and
read-back (the block between `#if 0` and `#endif` is not compiled). -/
def deviceSteps {σ : Type} (S : Sys σ) (env_t_ptr : env_t) : Prog σ Unit := do
  let e0 ← callWrapper S (Call.create_numba_oneapi_rw_mem_buffer env_t_ptr datasize 0)
  let e1 ← callWrapper S (Call.create_numba_oneapi_rw_mem_buffer env_t_ptr datasize 1)
  let e2 ← callWrapper S (Call.create_numba_oneapi_rw_mem_buffer env_t_ptr datasize 2)
  let err := Int.lor (Int.lor e0 e1) e2
  if err ≠ 0 then
    fprintf_stderr Msg.bufferCreationFailed
    exit 1
  let e0 ← callWrapper S
    (Call.write_numba_oneapi_mem_buffer_to_device env_t_ptr 0 true 0 datasize HostPtr.A)
  let e1 ← callWrapper S
    (Call.write_numba_oneapi_mem_buffer_to_device env_t_ptr 1 true 0 datasize HostPtr.B)
  let err := Int.lor e0 e1
  if err ≠ 0 then
    fprintf_stderr Msg.couldNotWrite
    exit 1
  let e0 ← callWrapper S
    (Call.create_numba_oneapi_program_from_source env_t_ptr 1 Source.programSource)
  let e1 ← callWrapper S (Call.build_numba_oneapi_program env_t_ptr)
  let err := Int.lor e0 e1
  if err ≠ 0 then
    fprintf_stderr Msg.couldNotCreateProgram
    exit 1
  let err ← callWrapper S (Call.create_numba_oneapi_kernel env_t_ptr KernelName.vecadd)
  if err ≠ 0 then
    fprintf_stderr Msg.couldNotCreateKernel
    exit 1
  let _err ← callWrapper S
    (Call.read_numba_oneapi_mem_buffer_from_device env_t_ptr 0 true 0 datasize HostPtr.C)

/-- The function `void buildAndExecuteKernel (runtime_t rt, execution_ty ex)`. -/
def buildAndExecuteKernel {σ : Type} (S : Sys σ) (ex : execution_ty) : Prog σ Unit := do
  let env_t_ptr := selectEnv ex
  if !(← malloc S HostPtr.A datasize) then
    perror
    exit 1
  if !(← malloc S HostPtr.B datasize) then
    perror
    exit 1
  if !(← malloc S HostPtr.C datasize) then
    perror
    exit 1
  initInput
  deviceSteps S env_t_ptr
  validate
  cleanup S

/-- Lines 161-172 of `main`, after `buildAndExecuteKernel` has returned; `r` is the
object behind `rt`. -/
def mainRest {σ : Type} (S : Sys σ) (r : Runtime) : Prog σ Int := do
  printf Msg.separator
  printf Msg.executingOnGPU
  let gpu ← deref r.first_gpu_env
  callable gpu.dump_fn
  let _ ← callWrapper S (Call.dump_fn_env env_t.first_gpu_env)
  printf Msg.separator
  let _ ← callWrapper S Call.destroy_numba_oneapi_runtime
  return 0

/-- The function `int main (int argc, char** argv)`; the result is the returned status.
Line 153 dereferences `rt` and calls through `rt->dump_fn`, line 158 dereferences
`rt->first_cpu_env` and calls through its `dump_fn`, line 164 does the same with
`rt->first_gpu_env`; none of these pointers is tested before. -/
def main {σ : Type} (S : Sys σ) : Prog σ Int := do
  let err ← callWrapper S Call.create_numba_oneapi_runtime
  if err = S.NUMBA_ONEAPI_FAILURE then
    return S.NUMBA_ONEAPI_FAILURE
  let rt ← readRt S
  let r ← deref rt
  callable r.dump_fn
  let _ ← callWrapper S Call.dump_fn_runtime
  printf Msg.separator
  printf Msg.executingOnCPU
  let cpu ← deref r.first_cpu_env
  callable cpu.dump_fn
  let _ ← callWrapper S (Call.dump_fn_env env_t.first_cpu_env)
  buildAndExecuteKernel S execution_ty.ON_CPU
  mainRest S r

/-! ## The kernel -/

/-- The three `__global float *` arguments of `vecadd`, bound to three distinct
device buffers. -/
structure KernelArgs where
  A : List F32
  B : List F32
  C : List F32

/-- Conversion of `get_global_id(0)` (a `size_t`) to `int`. -/
def toInt32 (n : Nat) : Int := ((n + 2147483648) % 4294967296 : Nat) - 2147483648

/-- The body of `vecadd` for the work-item with global id `gid`:
`int idx = get_global_id(0); C[idx] = A[idx] + B[idx];`.
An access outside a buffer gives `none`. -/
def vecadd (gid : Nat) (m : KernelArgs) : Option KernelArgs :=
  let idx := toInt32 gid
  if idx < 0 then none
  else
    match m.A[idx.toNat]?, m.B[idx.toNat]? with
    | some a, some b =>
      if idx.toNat < m.C.length then
        some { A := m.A, B := m.B, C := m.C.set idx.toNat (F32.add a b) }
      else none
    | _, _ => none

/-- The kernel run over an index space: the work-items execute the body one after
another in the order given. -/
def runKernel : List Nat → KernelArgs → Option KernelArgs
  | [], m => some m
  | gid :: rest, m => (vecadd gid m).bind (runKernel rest)

/-! ## Reading traces -/

/-- The wrapper call of an event, if it is one. -/
def Event.toCall : Event → Option Call
  | Event.call c _ => some c
  | _ => none

/-- The wrapper calls of a trace, in order. -/
def wrapperCalls (t : List Event) : List Call := t.filterMap Event.toCall

/-- Calls that execute a kernel on the device (the enqueue function). -/
def Call.isKernelExecution : Call → Bool
  | .enqueue_numba_oneapi_kernel_from_source _ _ _ _ _ => true
  | _ => false

/-- The wrapper function a call is a call of, numbered in the order of `Call`. -/
def Call.fn : Call → Nat
  | .create_numba_oneapi_runtime => 0
  | .destroy_numba_oneapi_runtime => 1
  | .dump_fn_runtime => 2
  | .dump_fn_env _ => 3
  | .create_numba_oneapi_rw_mem_buffer _ _ _ => 4
  | .write_numba_oneapi_mem_buffer_to_device _ _ _ _ _ _ => 5
  | .read_numba_oneapi_mem_buffer_from_device _ _ _ _ _ _ => 6
  | .create_numba_oneapi_program_from_source _ _ _ => 7
  | .build_numba_oneapi_program _ => 8
  | .create_numba_oneapi_kernel _ _ => 9
  | .enqueue_numba_oneapi_kernel_from_source _ _ _ _ _ => 10
  | .destroy_numba_oneapi_kernel => 11
  | .destroy_numba_oneapi_program => 12
  | .destroy_numba_oneapi_rw_mem_buffer _ => 13

/-- The step of `buildAndExecuteKernel` a call belongs to: 1 buffer creation,
2 upload, 3 program creation and build, 4 kernel creation, 5 read-back,
6 cleanup; 0 for the calls the function does not make. -/
def Call.stage : Call → Nat
  | .create_numba_oneapi_rw_mem_buffer _ _ _ => 1
  | .write_numba_oneapi_mem_buffer_to_device _ _ _ _ _ _ => 2
  | .create_numba_oneapi_program_from_source _ _ _ => 3
  | .build_numba_oneapi_program _ => 3
  | .create_numba_oneapi_kernel _ _ => 4
  | .read_numba_oneapi_mem_buffer_from_device _ _ _ _ _ _ => 5
  | .destroy_numba_oneapi_kernel => 6
  | .destroy_numba_oneapi_program => 6
  | .destroy_numba_oneapi_rw_mem_buffer _ => 6
  | _ => 0

/-- The message of the check that looks at the error code of a call; `none` for the
calls whose code no check looks at. -/
def Call.abortMsg : Call → Option Msg
  | .create_numba_oneapi_rw_mem_buffer _ _ _ => some Msg.bufferCreationFailed
  | .write_numba_oneapi_mem_buffer_to_device _ _ _ _ _ _ => some Msg.couldNotWrite
  | .create_numba_oneapi_program_from_source _ _ _ => some Msg.couldNotCreateProgram
  | .build_numba_oneapi_program _ => some Msg.couldNotCreateProgram
  | .create_numba_oneapi_kernel _ _ => some Msg.couldNotCreateKernel
  | _ => none

/-- The environment handle a call is given. -/
def Call.envArg : Call → Option env_t
  | .create_numba_oneapi_rw_mem_buffer env _ _ => some env
  | .write_numba_oneapi_mem_buffer_to_device env _ _ _ _ _ => some env
  | .read_numba_oneapi_mem_buffer_from_device env _ _ _ _ _ => some env
  | .create_numba_oneapi_program_from_source env _ _ => some env
  | .build_numba_oneapi_program env => some env
  | .create_numba_oneapi_kernel env _ => some env
  | _ => none

/-- The resources `buildAndExecuteKernel` creates. -/
inductive Resource where
  | kernel
  | program
  | buffer (k : Fin 3)
  | host (p : HostPtr)
  deriving DecidableEq, Repr

/-- Whether an event releases the resource: the destroy call of a handle, `free` of a
host array. -/
def Event.releases : Event → Resource → Bool
  | Event.call Call.destroy_numba_oneapi_kernel _, Resource.kernel => true
  | Event.call Call.destroy_numba_oneapi_program _, Resource.program => true
  | Event.call (Call.destroy_numba_oneapi_rw_mem_buffer k) _, Resource.buffer j => decide (k = j)
  | Event.free p, Resource.host q => decide (p = q)
  | _, _ => false

/-- Whether an event creates or uses the resource (releasing it apart). -/
def Event.uses : Event → Resource → Bool
  | Event.call (Call.create_numba_oneapi_kernel _ _) _, Resource.kernel => true
  | Event.call (Call.create_numba_oneapi_kernel _ _) _, Resource.program => true
  | Event.call (Call.build_numba_oneapi_program _) _, Resource.program => true
  | Event.call (Call.create_numba_oneapi_program_from_source _ _ _) _, Resource.program => true
  | Event.call (Call.create_numba_oneapi_rw_mem_buffer _ _ k) _, Resource.buffer j => decide (k = j)
  | Event.call (Call.write_numba_oneapi_mem_buffer_to_device _ k _ _ _ _) _, Resource.buffer j =>
    decide (k = j)
  | Event.call (Call.read_numba_oneapi_mem_buffer_from_device _ k _ _ _ _) _, Resource.buffer j =>
    decide (k = j)
  | Event.call (Call.write_numba_oneapi_mem_buffer_to_device _ _ _ _ _ p) _, Resource.host q =>
    decide (p = q)
  | Event.call (Call.read_numba_oneapi_mem_buffer_from_device _ _ _ _ _ p) _, Resource.host q =>
    decide (p = q)
  | Event.malloc p _ _, Resource.host q => decide (p = q)
  | _, _ => false

/-- Whether an event is a destroy call or a `free`. -/
def Event.isRelease : Event → Bool
  | Event.call Call.destroy_numba_oneapi_kernel _ => true
  | Event.call Call.destroy_numba_oneapi_program _ => true
  | Event.call (Call.destroy_numba_oneapi_rw_mem_buffer _) _ => true
  | Event.free _ => true
  | _ => false

/-- The positions of a trace whose event satisfies `f`. -/
def positions (f : Event → Bool) (t : List Event) : List Nat :=
  (List.range t.length).filter (fun j => match t[j]? with
    | some e => f e
    | none => false)

/-- The element `p[i]` of a host array (NaN outside the array). -/
def State.elem {σ : Type} (s : State σ) (p : HostPtr) (i : Nat) : F32 :=
  (s.mem p).getD i F32.nan

/-- The values the initialisation loop gives to `A`: `A[i] = i+1`. -/
def initA : List F32 := (List.range N).map (fun i => F32.ofNat ((i + 1) % SIZE_MAX1))

/-- The values the initialisation loop gives to `B`: `B[i] = 2*(i+1)`. -/
def initB : List F32 :=
  (List.range N).map (fun i => F32.ofNat ((2 * ((i + 1) % SIZE_MAX1)) % SIZE_MAX1))

/-! ## Environments -/

/-- A runtime object all of whose pointers can be used. -/
def validRuntime : Runtime :=
  { dump_fn := true
    first_cpu_env := some { dump_fn := true }
    first_gpu_env := some { dump_fn := true } }

/-- An environment without state: `malloc` returns `alloc` (`none` is `NULL`), every
wrapper call `c` returns `code c`, a read delivers the floats `deliver`, and runtime
creation leaves in `rt` a handle to `validRuntime`. -/
def scriptedSys (failure : Int) (alloc : Option (Nat → F32)) (code : Call → Int)
    (deliver : List F32) : Sys Unit :=
  { NUMBA_ONEAPI_FAILURE := failure
    malloc := fun _ u => (alloc, u)
    call := fun c _ u => (code c, deliver, u)
    rt := fun _ => some validRuntime }

/-- Modelled from the spec: the device memory behind the three buffer handles (the glue
library that owns it is not in the repository). -/
structure Device where
  bufs : Fin 3 → List F32

/-- Modelled from the spec: a faithful device.  Buffers are independent of each other;
creating a buffer of `buffsize` bytes gives it unspecified content `fresh`; a write
replaces the floats of the byte range `[offset, offset + buffersize)` of the buffer by
the host data; a read of that range delivers the floats last written there; an enqueue
would run the kernel `K`; nothing else touches the buffers. -/
def Device.call (fresh : Fin 3 → Nat → F32) (K : Device → Device) (code : Call → Int) :
    Call → List F32 → Device → Int × List F32 × Device
  | .create_numba_oneapi_rw_mem_buffer env buffsize buf, _, d =>
    (code (.create_numba_oneapi_rw_mem_buffer env buffsize buf), [],
      { bufs := Function.update d.bufs buf
          ((List.range (buffsize / sizeof_float)).map (fresh buf)) })
  | .write_numba_oneapi_mem_buffer_to_device env buf blocking offset buffersize host, data, d =>
    (code (.write_numba_oneapi_mem_buffer_to_device env buf blocking offset buffersize host), [],
      { bufs := Function.update d.bufs buf
          ((d.bufs buf).take (offset / sizeof_float) ++ data.take (buffersize / sizeof_float) ++
            (d.bufs buf).drop (offset / sizeof_float + buffersize / sizeof_float)) })
  | .read_numba_oneapi_mem_buffer_from_device env buf blocking offset buffersize host, _, d =>
    (code (.read_numba_oneapi_mem_buffer_from_device env buf blocking offset buffersize host),
      ((d.bufs buf).drop (offset / sizeof_float)).take (buffersize / sizeof_float), d)
  | .enqueue_numba_oneapi_kernel_from_source src name nb isz wsz, _, d =>
    (code (.enqueue_numba_oneapi_kernel_from_source src name nb isz wsz), [], K d)
  | c, _, d => (code c, [], d)

/-- Modelled from the spec: the environment whose device is faithful; `malloc` returns
`alloc` and the wrapper call `c` returns the code `code c`. -/
def faithfulSys (failure : Int) (alloc : Option (Nat → F32)) (fresh : Fin 3 → Nat → F32)
    (K : Device → Device) (code : Call → Int) : Sys Device :=
  { NUMBA_ONEAPI_FAILURE := failure
    malloc := fun _ d => (alloc, d)
    call := Device.call fresh K code
    rt := fun _ => some validRuntime }

/-! ## Auxiliary definitions for the proofs -/

/-- The list after the assignments `l[j] = f j` for `j = i, ..., i + fuel - 1`. -/
def setRange (f : Nat → F32) : List F32 → Nat → Nat → List F32
  | l, _, 0 => l
  | l, i, fuel + 1 => setRange f (l.set i (f i)) (i + 1) fuel

/-- The first index `j` with `i ≤ j < i + fuel` at which `C[j] != A[j]`, if there is one. -/
def firstMismatch (C A : List F32) : Nat → Nat → Option Nat
  | _, 0 => none
  | i, fuel + 1 =>
    if F32.ne (C.getD i F32.nan) (A.getD i F32.nan) then some i
    else firstMismatch C A (i + 1) fuel

/-- The state after `p = malloc(size)`. -/
def mallocState {σ : Type} (S : Sys σ) (p : HostPtr) (size : Nat) (s : State σ) : State σ :=
  (malloc S p size s).2

/-- Whether `malloc(size)` returns a non-NULL pointer in state `s`. -/
def mallocOk {σ : Type} (S : Sys σ) (size : Nat) (s : State σ) : Bool :=
  (S.malloc size s.sys).1.isSome

/-- The events of the three host allocations when all succeed. -/
def mallocEvents : List Event :=
  [Event.malloc HostPtr.A datasize true, Event.malloc HostPtr.B datasize true,
    Event.malloc HostPtr.C datasize true]

/-- The three buffer creations with their codes. -/
def createEvents (env : env_t) (e0 e1 e2 : Int) : List Event :=
  [Event.call (Call.create_numba_oneapi_rw_mem_buffer env datasize 0) e0,
    Event.call (Call.create_numba_oneapi_rw_mem_buffer env datasize 1) e1,
    Event.call (Call.create_numba_oneapi_rw_mem_buffer env datasize 2) e2]

/-- The two uploads with their codes. -/
def writeEvents (env : env_t) (w0 w1 : Int) : List Event :=
  [Event.call (Call.write_numba_oneapi_mem_buffer_to_device env 0 true 0 datasize HostPtr.A) w0,
    Event.call (Call.write_numba_oneapi_mem_buffer_to_device env 1 true 0 datasize HostPtr.B) w1]

/-- Program creation and build with their codes. -/
def programEvents (env : env_t) (p0 p1 : Int) : List Event :=
  [Event.call (Call.create_numba_oneapi_program_from_source env 1 Source.programSource) p0,
    Event.call (Call.build_numba_oneapi_program env) p1]

/-- Kernel creation with its code. -/
def kernelEvent (env : env_t) (k : Int) : Event :=
  Event.call (Call.create_numba_oneapi_kernel env KernelName.vecadd) k

/-- The read-back with its code. -/
def readEvent (env : env_t) (r : Int) : Event :=
  Event.call (Call.read_numba_oneapi_mem_buffer_from_device env 0 true 0 datasize HostPtr.C) r

/-- The events of the cleanup, with the codes the destroy calls return. -/
def cleanupEvents (d0 d1 d2 d3 d4 : Int) : List Event :=
  [Event.call Call.destroy_numba_oneapi_kernel d0,
    Event.call Call.destroy_numba_oneapi_program d1,
    Event.call (Call.destroy_numba_oneapi_rw_mem_buffer 0) d2,
    Event.call (Call.destroy_numba_oneapi_rw_mem_buffer 1) d3,
    Event.call (Call.destroy_numba_oneapi_rw_mem_buffer 2) d4,
    Event.free HostPtr.A, Event.free HostPtr.B, Event.free HostPtr.C]

/-- The ways through lines 57-115, as outcome and events. -/
inductive DevPath (env : env_t) : Outcome Unit → List Event → Prop
  | buffers (e0 e1 e2 : Int) (h : ¬ (e0 = 0 ∧ e1 = 0 ∧ e2 = 0)) :
    DevPath env (Outcome.exit 1)
      (createEvents env e0 e1 e2 ++ [Event.stderr Msg.bufferCreationFailed])
  | writes (w0 w1 : Int) (h : ¬ (w0 = 0 ∧ w1 = 0)) :
    DevPath env (Outcome.exit 1)
      (createEvents env 0 0 0 ++ writeEvents env w0 w1 ++ [Event.stderr Msg.couldNotWrite])
  | program (p0 p1 : Int) (h : ¬ (p0 = 0 ∧ p1 = 0)) :
    DevPath env (Outcome.exit 1)
      (createEvents env 0 0 0 ++ writeEvents env 0 0 ++ programEvents env p0 p1 ++
        [Event.stderr Msg.couldNotCreateProgram])
  | kernel (k : Int) (h : k ≠ 0) :
    DevPath env (Outcome.exit 1)
      (createEvents env 0 0 0 ++ writeEvents env 0 0 ++ programEvents env 0 0 ++
        [kernelEvent env k, Event.stderr Msg.couldNotCreateKernel])
  | done (r : Int) :
    DevPath env (Outcome.ret ())
      (createEvents env 0 0 0 ++ writeEvents env 0 0 ++ programEvents env 0 0 ++
        [kernelEvent env 0, readEvent env r])

/-- The events of lines 57-115 when every checked call returns 0; `r` is the code of
the read. -/
def deviceEvents (env : env_t) (r : Int) : List Event :=
  createEvents env 0 0 0 ++ writeEvents env 0 0 ++ programEvents env 0 0 ++
    [kernelEvent env 0, readEvent env r]

/-- The ways through `buildAndExecuteKernel`, as outcome and events. -/
inductive BekPath (env : env_t) : Outcome Unit → List Event → Prop
  | mallocA : BekPath env (Outcome.exit 1) [Event.malloc HostPtr.A datasize false, Event.perror]
  | mallocB : BekPath env (Outcome.exit 1)
      [Event.malloc HostPtr.A datasize true, Event.malloc HostPtr.B datasize false, Event.perror]
  | mallocC : BekPath env (Outcome.exit 1)
      [Event.malloc HostPtr.A datasize true, Event.malloc HostPtr.B datasize true,
        Event.malloc HostPtr.C datasize false, Event.perror]
  | buffers (e0 e1 e2 : Int) (h : ¬ (e0 = 0 ∧ e1 = 0 ∧ e2 = 0)) :
    BekPath env (Outcome.exit 1)
      (mallocEvents ++ createEvents env e0 e1 e2 ++ [Event.stderr Msg.bufferCreationFailed])
  | writes (w0 w1 : Int) (h : ¬ (w0 = 0 ∧ w1 = 0)) :
    BekPath env (Outcome.exit 1)
      (mallocEvents ++ createEvents env 0 0 0 ++ writeEvents env w0 w1 ++
        [Event.stderr Msg.couldNotWrite])
  | program (p0 p1 : Int) (h : ¬ (p0 = 0 ∧ p1 = 0)) :
    BekPath env (Outcome.exit 1)
      (mallocEvents ++ createEvents env 0 0 0 ++ writeEvents env 0 0 ++ programEvents env p0 p1 ++
        [Event.stderr Msg.couldNotCreateProgram])
  | kernel (k : Int) (h : k ≠ 0) :
    BekPath env (Outcome.exit 1)
      (mallocEvents ++ createEvents env 0 0 0 ++ writeEvents env 0 0 ++ programEvents env 0 0 ++
        [kernelEvent env k, Event.stderr Msg.couldNotCreateKernel])
  | mismatch (r : Int) (i : Nat) (hi : i < N) :
    BekPath env (Outcome.exit 1)
      (mallocEvents ++ deviceEvents env r ++
        [Event.stdout (Msg.positionWrong i), Event.stdout Msg.stopValidating])
  | success (r d0 d1 d2 d3 d4 : Int) :
    BekPath env (Outcome.ret ())
      (mallocEvents ++ deviceEvents env r ++ [Event.stdout Msg.resultsMatch] ++
        cleanupEvents d0 d1 d2 d3 d4)

/-- The state after the three allocations and the initialisation loop. -/
def inputState {σ : Type} (S : Sys σ) (s : State σ) : State σ :=
  (initInput (mallocState S HostPtr.C datasize (mallocState S HostPtr.B datasize
    (mallocState S HostPtr.A datasize s)))).2

/-- What a run shows: how it ends and the trace. -/
def observe {σ α : Type} (r : Outcome α × State σ) : Outcome α × List Event := (r.1, r.2.trace)

/-- Whether an event is output of the validation or part of the cleanup. -/
def Event.isLate : Event → Bool
  | Event.stdout _ => true
  | Event.free _ => true
  | _ => false

/-- An environment in which everything succeeds and the read delivers the values of `A`. -/
def okSys : Sys Unit := scriptedSys (-1) (some (fun _ => F32.nan)) (fun _ => 0) initA

/-- An environment in which every call returns 0 but the read delivers nothing, so that
`C` keeps its uninitialised content (NaN). -/
def deafSys : Sys Unit := scriptedSys (-1) (some (fun _ => F32.nan)) (fun _ => 0) []

/-- An environment in which the call `bad` returns 7 and every other call returns 0. -/
def failSys (bad : Call) : Sys Unit :=
  scriptedSys (-1) (some (fun _ => F32.nan)) (fun c => if c = bad then 7 else 0) initA

/-- An environment in which runtime creation returns `NUMBA_ONEAPI_FAILURE = -1`. -/
def noRuntimeSys : Sys Unit :=
  scriptedSys (-1) (some (fun _ => F32.nan))
    (fun c => if c = Call.create_numba_oneapi_runtime then -1 else 0) initA

/-- The wrapper calls of a complete run of `buildAndExecuteKernel`, in order. -/
def successCalls (env : env_t) : List Call :=
  [Call.create_numba_oneapi_rw_mem_buffer env datasize 0,
    Call.create_numba_oneapi_rw_mem_buffer env datasize 1,
    Call.create_numba_oneapi_rw_mem_buffer env datasize 2,
    Call.write_numba_oneapi_mem_buffer_to_device env 0 true 0 datasize HostPtr.A,
    Call.write_numba_oneapi_mem_buffer_to_device env 1 true 0 datasize HostPtr.B,
    Call.create_numba_oneapi_program_from_source env 1 Source.programSource,
    Call.build_numba_oneapi_program env,
    Call.create_numba_oneapi_kernel env KernelName.vecadd,
    Call.read_numba_oneapi_mem_buffer_from_device env 0 true 0 datasize HostPtr.C,
    Call.destroy_numba_oneapi_kernel,
    Call.destroy_numba_oneapi_program,
    Call.destroy_numba_oneapi_rw_mem_buffer 0,
    Call.destroy_numba_oneapi_rw_mem_buffer 1,
    Call.destroy_numba_oneapi_rw_mem_buffer 2]

/-- The trace of a complete run in which every wrapper call returns 0. -/
def successTrace (env : env_t) : List Event :=
  mallocEvents ++ deviceEvents env 0 ++ [Event.stdout Msg.resultsMatch] ++ cleanupEvents 0 0 0 0 0

/-- Whether the resource is a host array. -/
def Resource.isHost : Resource → Bool
  | Resource.host _ => true
  | _ => false

/-- The resource is released exactly once in the trace, after every event that uses it;
a host array is moreover released after the message that ends the validation. -/
def ReleasedOnceAfterUse (t : List Event) (res : Resource) : Prop :=
  (positions (fun e => e.releases res) t).length = 1 ∧
  (∀ k ∈ positions (fun e => e.releases res) t, ∀ j ∈ positions (fun e => e.uses res) t, j < k) ∧
  (res.isHost = true → ∀ k ∈ positions (fun e => e.releases res) t,
    ∀ j ∈ positions (fun e => decide (e = Event.stdout Msg.resultsMatch)) t, j < k)

/-- A program that faults at once. -/
def fault {σ α : Type} : Prog σ α := fun s => (Outcome.fault, s)

/-- A state whose three host arrays all hold the values `A[i] = i + 1`. -/
def matchingState : State Unit := { sys := (), mem := fun _ => initA, trace := [] }

/-- A state in which `C` is the one-element array `[NaN]` and `A` holds `A[i] = i + 1`. -/
def shortState : State Unit :=
  { sys := ()
    mem := fun p => match p with
      | HostPtr.C => [F32.nan]
      | _ => initA
    trace := [] }

/-- The state of `main` right before it calls `buildAndExecuteKernel` (lines 151-158),
when runtime creation did not return `NUMBA_ONEAPI_FAILURE`. -/
def mainBefore {σ : Type} (S : Sys σ) (s : State σ) : State σ :=
  callState S (Call.dump_fn_env env_t.first_cpu_env)
    (((callState S Call.dump_fn_runtime (callState S Call.create_numba_oneapi_runtime s)).log
      (Event.stdout Msg.separator)).log (Event.stdout Msg.executingOnCPU))

/-- The state of `main` when it returns 0, from the state `s` in which
`buildAndExecuteKernel` returned (lines 161-172). -/
def mainAfter {σ : Type} (S : Sys σ) (s : State σ) : State σ :=
  callState S Call.destroy_numba_oneapi_runtime
    ((callState S (Call.dump_fn_env env_t.first_gpu_env)
      ((s.log (Event.stdout Msg.separator)).log (Event.stdout Msg.executingOnGPU))).log
      (Event.stdout Msg.separator))

/-- A device whose three buffers are empty. -/
def emptyDevice : Device := { bufs := fun _ => [] }

/-- A faithful-device environment in which every call returns 0 and `malloc` returns
`NULL`. -/
def faithfulNoMemSys : Sys Device :=
  faithfulSys (-1) none (fun _ _ => F32.nan) id (fun _ => 0)

/-- Whether `main` can use every handle it dereferences: in the state `s` right after
runtime creation `rt` points at an object, so do `rt->first_cpu_env` and
`rt->first_gpu_env`, and the `dump_fn` pointer of each of the three can be called. -/
def handlesValid {σ : Type} (S : Sys σ) (s : State σ) : Bool :=
  (S.rt s.sys).any (fun r =>
    r.dump_fn && r.first_cpu_env.any Env.dump_fn && r.first_gpu_env.any Env.dump_fn)

/-- The environment `okSys` on a machine without GPU: everything succeeds, and runtime
creation leaves `rt->first_gpu_env` `NULL`. -/
def noGpuSys : Sys Unit :=
  { NUMBA_ONEAPI_FAILURE := okSys.NUMBA_ONEAPI_FAILURE
    malloc := okSys.malloc
    call := okSys.call
    rt := fun _ =>
      some { dump_fn := true, first_cpu_env := some { dump_fn := true }, first_gpu_env := none } }

/-! # Theorems -/

/-! ## Floats and bitwise or -/

theorem F32.ofNat_exact (n : Nat) (h : n < 2 ^ 24) : F32.ofNat n = F32.fin false n 0 := by
  have h1 : Nat.size n ≤ 24 := Nat.size_le.mpr h
  simp [F32.ofNat, F32.round, h1]

theorem F32.add_exact (a b : Nat) (h : a + b < 2 ^ 24) :
    F32.add (F32.fin false a 0) (F32.fin false b 0) = F32.fin false (a + b) 0 := by
  have h1 : Nat.size (a + b) ≤ 24 := Nat.size_le.mpr h
  by_cases h0 : a + b = 0
  · have ha : a = 0 := by omega
    have hb : b = 0 := by omega
    subst ha; subst hb
    simp [F32.add]
  · have hne : ((a : Int) + (b : Int)) ≠ 0 := by omega
    have hnn : ¬ ((a : Int) + (b : Int) < 0) := by omega
    have habs : ((a : Int) + (b : Int)).natAbs = a + b := by omega
    simp [F32.add, F32.round, hne, hnn, habs, h1]

theorem F32.eq_fin_self (n : Nat) : F32.eq (F32.fin false n 0) (F32.fin false n 0) = true := by
  simp [F32.eq]

theorem F32.ne_fin_self (n : Nat) : F32.ne (F32.fin false n 0) (F32.fin false n 0) = false := by
  simp [F32.ne, F32.eq]

theorem F32.ne_nan_left (x : F32) : F32.ne F32.nan x = true := by
  simp [F32.ne, F32.eq]

theorem nat_lor_eq_zero (a b : Nat) : a ||| b = 0 ↔ a = 0 ∧ b = 0 := by
  constructor
  · intro h
    constructor
    · apply Nat.eq_of_testBit_eq
      intro i
      have := congrArg (fun n => Nat.testBit n i) h
      simp [Nat.testBit_or] at this
      simp [this.1]
    · apply Nat.eq_of_testBit_eq
      intro i
      have := congrArg (fun n => Nat.testBit n i) h
      simp [Nat.testBit_or] at this
      simp [this.2]
  · rintro ⟨rfl, rfl⟩
    rfl

theorem lor_eq_zero (a b : Int) : Int.lor a b = 0 ↔ a = 0 ∧ b = 0 := by
  cases a <;> cases b
  · simp only [Int.lor, Int.ofNat_eq_coe]
    rw [show ((0 : Int) = ((0 : Nat) : Int)) from rfl]
    simp only [Int.natCast_inj, nat_lor_eq_zero]
  · simp [Int.lor]
  · simp [Int.lor]
  · simp [Int.lor]

/-! ## Running programs -/

theorem bind_eq {σ α β : Type} (m : Prog σ α) (f : α → Prog σ β) : (m >>= f) = Prog.bind m f := rfl
theorem pure_eq {σ α : Type} (a : α) : (pure a : Prog σ α) = Prog.pure a := rfl
theorem Prog.bind_callWrapper {σ β : Type} (S : Sys σ) (c : Call) (f : Int → Prog σ β) (s : State σ) :
    Prog.bind (callWrapper S c) f s = f (callRet S c s) (callState S c s) := rfl
theorem Prog.bind_emit {σ β : Type} (e : Event) (f : Unit → Prog σ β) (s : State σ) :
    Prog.bind (emit e) f s = f () (s.log e) := rfl
theorem Prog.bind_exit {σ α β : Type} (n : Int) (f : α → Prog σ β) (s : State σ) :
    Prog.bind (exit n) f s = (Outcome.exit n, s) := rfl
theorem Prog.bind_pure {σ α β : Type} (a : α) (f : α → Prog σ β) (s : State σ) :
    Prog.bind (Prog.pure a) f s = f a s := rfl
theorem Prog.ite_apply {σ α : Type} (c : Prop) [Decidable c] (m1 m2 : Prog σ α) (s : State σ) :
    (if c then m1 else m2) s = if c then m1 s else m2 s := by split <;> rfl
theorem Prog.pure_apply {σ α : Type} (a : α) (s : State σ) :
    (Prog.pure a : Prog σ α) s = (Outcome.ret a, s) := rfl
theorem Prog.bind_ret {σ α β : Type} (m : Prog σ α) (f : α → Prog σ β) (s s1 : State σ) (a : α)
    (h : m s = (Outcome.ret a, s1)) : Prog.bind m f s = f a s1 := by
  simp [Prog.bind, h]
theorem Prog.bind_exit_of {σ α β : Type} (m : Prog σ α) (f : α → Prog σ β) (s s1 : State σ) (n : Int)
    (h : m s = (Outcome.exit n, s1)) : Prog.bind m f s = (Outcome.exit n, s1) := by
  simp [Prog.bind, h]

theorem setRange_getElem? (f : Nat → F32) (l : List F32) (i fuel j : Nat) :
    (setRange f l i fuel)[j]? = if i ≤ j ∧ j < i + fuel ∧ j < l.length then some (f j) else l[j]? := by
  induction fuel generalizing l i with
  | zero =>
    have h : ¬ (i ≤ j ∧ j < i + 0 ∧ j < l.length) := by omega
    simp only [setRange, if_neg h]
  | succ k ih =>
    simp only [setRange, ih, List.length_set]
    by_cases hij : i = j
    · subst hij
      by_cases hl : i < l.length
      · simp [hl]
      · simp [hl]
        rw [List.getElem?_eq_none (by simp; omega), List.getElem?_eq_none (by omega)]
    · rw [List.getElem?_set_ne hij]
      by_cases h1 : i + 1 ≤ j ∧ j < i + 1 + k ∧ j < l.length
      · have h2 : i ≤ j ∧ j < i + (k + 1) ∧ j < l.length := ⟨by omega, by omega, h1.2.2⟩
        simp [h1, h2]
      · have h2 : ¬ (i ≤ j ∧ j < i + (k + 1) ∧ j < l.length) := by
          intro h; apply h1; exact ⟨by omega, by omega, h.2.2⟩
        simp [h1, h2]

theorem setRange_full (f : Nat → F32) (l : List F32) :
    setRange f l 0 l.length = (List.range l.length).map f := by
  apply List.ext_getElem?
  intro j
  rw [setRange_getElem?]
  by_cases hj : j < l.length
  · simp [hj]
  · simp [hj]
    rw [List.getElem?_eq_none (by omega), List.getElem?_eq_none (by simp; omega)]
    rfl

theorem initBody_eq {σ : Type} (i : Nat) (s : State σ) (hA : i < (s.mem HostPtr.A).length)
    (hB : i < (s.mem HostPtr.B).length) :
    initBody i s = (Outcome.ret (),
      { sys := s.sys
        mem := Function.update (Function.update s.mem HostPtr.A
            ((s.mem HostPtr.A).set i (F32.ofNat ((i + 1) % SIZE_MAX1)))) HostPtr.B
            ((s.mem HostPtr.B).set i (F32.ofNat ((2 * ((i + 1) % SIZE_MAX1)) % SIZE_MAX1)))
        trace := s.trace }) := by
  simp [initBody, bind_eq, Prog.bind, store, hA, hB, Function.update]

theorem forFrom_init {σ : Type} (fuel : Nat) : ∀ (i : Nat) (s : State σ),
    i + fuel ≤ (s.mem HostPtr.A).length → i + fuel ≤ (s.mem HostPtr.B).length →
    forFrom initBody i fuel s = (Outcome.ret (),
      { sys := s.sys
        mem := Function.update (Function.update s.mem HostPtr.A
            (setRange (fun i => F32.ofNat ((i + 1) % SIZE_MAX1)) (s.mem HostPtr.A) i fuel)) HostPtr.B
            (setRange (fun i => F32.ofNat ((2 * ((i + 1) % SIZE_MAX1)) % SIZE_MAX1))
              (s.mem HostPtr.B) i fuel)
        trace := s.trace }) := by
  induction fuel with
  | zero =>
    intro i s _ _
    simp only [forFrom, setRange, Prog.pure_apply]
    congr 1
    cases s with
    | mk sys mem trace =>
      congr 1
      funext p
      cases p <;> simp [Function.update]
  | succ k ih =>
    intro i s hA hB
    simp only [forFrom]
    rw [Prog.bind_ret _ _ _ _ _ (initBody_eq i s (by omega) (by omega))]
    rw [ih]
    · simp only [setRange]
      congr 2
      simp [Function.update]
      funext p
      cases p <;> simp
    · simp [Function.update]; omega
    · simp [Function.update]; omega

theorem initInput_eq {σ : Type} (s : State σ) (hA : (s.mem HostPtr.A).length = N)
    (hB : (s.mem HostPtr.B).length = N) :
    initInput s = (Outcome.ret (),
      { sys := s.sys
        mem := Function.update (Function.update s.mem HostPtr.A initA) HostPtr.B initB
        trace := s.trace }) := by
  have h := forFrom_init N 0 s (by omega) (by omega)
  have e : (initInput : Prog σ Unit) = forFrom initBody 0 N := rfl
  rw [e, h]
  have hA2 := setRange_full (fun i => F32.ofNat ((i + 1) % SIZE_MAX1)) (s.mem HostPtr.A)
  have hB2 := setRange_full (fun i => F32.ofNat ((2 * ((i + 1) % SIZE_MAX1)) % SIZE_MAX1)) (s.mem HostPtr.B)
  rw [hA] at hA2
  rw [hB] at hB2
  rw [hA2, hB2]
  rfl

theorem validateBody_eq {σ : Type} (i : Nat) (s : State σ) (hC : i < (s.mem HostPtr.C).length)
    (hA : i < (s.mem HostPtr.A).length) :
    validateBody i s =
      if F32.ne (s.elem HostPtr.C i) (s.elem HostPtr.A i) then
        (Outcome.exit 1,
          (s.log (Event.stdout (Msg.positionWrong i))).log (Event.stdout Msg.stopValidating))
      else (Outcome.ret (), s) := by
  simp only [validateBody, bind_eq, Prog.bind, load, State.elem, List.getD_eq_getElem?_getD,
    List.getElem?_eq_getElem hC, List.getElem?_eq_getElem hA, Option.getD_some]
  split <;> rfl

theorem firstMismatch_none (C A : List F32) (fuel : Nat) : ∀ i,
    (firstMismatch C A i fuel = none ↔
      ∀ j, i ≤ j → j < i + fuel → F32.ne (C.getD j F32.nan) (A.getD j F32.nan) = false) := by
  induction fuel with
  | zero => intro i; simp [firstMismatch]; intro j h1 h2; omega
  | succ k ih =>
    intro i
    simp only [firstMismatch]
    by_cases h : F32.ne (C.getD i F32.nan) (A.getD i F32.nan) = true
    · rw [if_pos h]
      constructor
      · intro h1; cases h1
      · intro h1
        have := h1 i (Nat.le_refl i) (by omega)
        rw [h] at this
        cases this
    · rw [if_neg h, ih (i + 1)]
      constructor
      · intro h1 j h2 h3
        by_cases hij : i = j
        · subst hij; simpa using h
        · exact h1 j (by omega) (by omega)
      · intro h1 j h2 h3
        exact h1 j (by omega) (by omega)

theorem firstMismatch_some (C A : List F32) (fuel : Nat) : ∀ i j,
    (firstMismatch C A i fuel = some j ↔
      (i ≤ j ∧ j < i + fuel ∧ F32.ne (C.getD j F32.nan) (A.getD j F32.nan) = true ∧
        ∀ k, i ≤ k → k < j → F32.ne (C.getD k F32.nan) (A.getD k F32.nan) = false)) := by
  induction fuel with
  | zero => intro i j; simp [firstMismatch]; intro h1 h2; omega
  | succ k ih =>
    intro i j
    simp only [firstMismatch]
    by_cases h : F32.ne (C.getD i F32.nan) (A.getD i F32.nan) = true
    · rw [if_pos h]
      simp only [Option.some.injEq]
      constructor
      · intro h1
        subst h1
        exact ⟨Nat.le_refl _, by omega, h, fun k h2 h3 => by omega⟩
      · rintro ⟨h1, _, _, h4⟩
        by_contra hne
        have := h4 i (Nat.le_refl _) (by omega)
        rw [h] at this
        cases this
    · rw [if_neg h, ih (i + 1) j]
      constructor
      · rintro ⟨h1, h2, h3, h4⟩
        refine ⟨by omega, by omega, h3, ?_⟩
        intro k0 hk1 hk2
        by_cases hik : i = k0
        · subst hik; simpa using h
        · exact h4 k0 (by omega) hk2
      · rintro ⟨h1, h2, h3, h4⟩
        have hij : i ≠ j := by
          intro e; subst e; exact h h3
        exact ⟨by omega, by omega, h3, fun k0 hk1 hk2 => h4 k0 (by omega) hk2⟩

theorem forFrom_validate_none {σ : Type} (fuel : Nat) : ∀ (i : Nat) (s : State σ),
    i + fuel ≤ (s.mem HostPtr.C).length → i + fuel ≤ (s.mem HostPtr.A).length →
    firstMismatch (s.mem HostPtr.C) (s.mem HostPtr.A) i fuel = none →
    forFrom validateBody i fuel s = (Outcome.ret (), s) := by
  induction fuel with
  | zero => intro i s _ _ _; rfl
  | succ k ih =>
    intro i s hC hA h
    simp only [firstMismatch] at h
    by_cases hne : F32.ne ((s.mem HostPtr.C).getD i F32.nan) ((s.mem HostPtr.A).getD i F32.nan) = true
    · rw [if_pos hne] at h
      cases h
    · rw [if_neg hne] at h
      have hb : validateBody i s = (Outcome.ret (), s) := by
        rw [validateBody_eq i s (by omega) (by omega)]
        simp only [State.elem, hne]
        rfl
      simp only [forFrom]
      rw [Prog.bind_ret _ _ _ _ _ hb]
      exact ih (i + 1) s (by omega) (by omega) h

theorem forFrom_validate_some {σ : Type} (fuel : Nat) : ∀ (i j : Nat) (s : State σ),
    j < (s.mem HostPtr.C).length → j < (s.mem HostPtr.A).length →
    firstMismatch (s.mem HostPtr.C) (s.mem HostPtr.A) i fuel = some j →
    forFrom validateBody i fuel s = (Outcome.exit 1,
      (s.log (Event.stdout (Msg.positionWrong j))).log (Event.stdout Msg.stopValidating)) := by
  induction fuel with
  | zero => intro i j s _ _ h; simp [firstMismatch] at h
  | succ k ih =>
    intro i j s hC hA h
    have hj := (firstMismatch_some _ _ _ _ _).mp h
    simp only [firstMismatch] at h
    by_cases hne : F32.ne ((s.mem HostPtr.C).getD i F32.nan) ((s.mem HostPtr.A).getD i F32.nan) = true
    · rw [if_pos hne] at h
      simp only [Option.some.injEq] at h
      subst h
      have hb : validateBody i s = (Outcome.exit 1,
          (s.log (Event.stdout (Msg.positionWrong i))).log (Event.stdout Msg.stopValidating)) := by
        rw [validateBody_eq i s hC hA]
        simp only [State.elem, hne]
        rfl
      simp only [forFrom]
      rw [Prog.bind_exit_of _ _ _ _ _ hb]
    · rw [if_neg hne] at h
      have hb : validateBody i s = (Outcome.ret (), s) := by
        rw [validateBody_eq i s (by omega) (by omega)]
        simp only [State.elem, hne]
        rfl
      simp only [forFrom]
      rw [Prog.bind_ret _ _ _ _ _ hb]
      exact ih (i + 1) j s hC hA h

theorem validate_eq_forFrom {σ : Type} :
    (validate : Prog σ Unit) =
      Prog.bind (forFrom validateBody 0 N) (fun _ => printf Msg.resultsMatch) := rfl

theorem validate_pass {σ : Type} (s : State σ) (hC : N ≤ (s.mem HostPtr.C).length)
    (hA : N ≤ (s.mem HostPtr.A).length)
    (h : firstMismatch (s.mem HostPtr.C) (s.mem HostPtr.A) 0 N = none) :
    validate s = (Outcome.ret (), s.log (Event.stdout Msg.resultsMatch)) := by
  rw [validate_eq_forFrom,
    Prog.bind_ret _ _ _ _ _ (forFrom_validate_none N 0 s (by omega) (by omega) h)]
  rfl

theorem validate_fail {σ : Type} (s : State σ) (j : Nat) (hC : j < (s.mem HostPtr.C).length)
    (hA : j < (s.mem HostPtr.A).length)
    (h : firstMismatch (s.mem HostPtr.C) (s.mem HostPtr.A) 0 N = some j) :
    validate s = (Outcome.exit 1,
      (s.log (Event.stdout (Msg.positionWrong j))).log (Event.stdout Msg.stopValidating)) := by
  rw [validate_eq_forFrom, Prog.bind_exit_of _ _ _ _ _ (forFrom_validate_some N 0 j s hC hA h)]

theorem Prog.bind_malloc {σ β : Type} (S : Sys σ) (p : HostPtr) (n : Nat) (f : Bool → Prog σ β)
    (s : State σ) :
    Prog.bind (malloc S p n) f s = f (mallocOk S n s) (mallocState S p n s) := rfl

theorem Prog.bind_free {σ β : Type} (p : HostPtr) (f : Unit → Prog σ β) (s : State σ) :
    Prog.bind (free p) f s = f () (free p s).2 := rfl

@[simp] theorem mallocState_trace {σ : Type} (S : Sys σ) (p : HostPtr) (n : Nat) (s : State σ) :
    (mallocState S p n s).trace = s.trace ++ [Event.malloc p n (mallocOk S n s)] := rfl

theorem mallocState_mem_self {σ : Type} (S : Sys σ) (p : HostPtr) (n : Nat) (s : State σ)
    (h : mallocOk S n s = true) : ((mallocState S p n s).mem p).length = n / sizeof_float := by
  unfold mallocOk at h
  simp only [mallocState, malloc]
  cases hm : (S.malloc n s.sys).1 with
  | none => rw [hm] at h; cases h
  | some g => simp

theorem mallocState_mem_other {σ : Type} (S : Sys σ) (p q : HostPtr) (n : Nat) (s : State σ)
    (h : q ≠ p) : (mallocState S p n s).mem q = s.mem q := by
  simp only [mallocState, malloc]
  cases hm : (S.malloc n s.sys).1 with
  | none => rfl
  | some g => simp [Function.update, h]

@[simp] theorem callState_trace {σ : Type} (S : Sys σ) (c : Call) (s : State σ) :
    (callState S c s).trace = s.trace ++ [Event.call c (callRet S c s)] := rfl

@[simp] theorem log_trace {σ : Type} (s : State σ) (e : Event) :
    (s.log e).trace = s.trace ++ [e] := rfl

@[simp] theorem log_mem {σ : Type} (s : State σ) (e : Event) : (s.log e).mem = s.mem := rfl

@[simp] theorem free_trace {σ : Type} (p : HostPtr) (s : State σ) :
    (free p s).2.trace = s.trace ++ [Event.free p] := rfl

theorem callState_mem_of_not_read {σ : Type} (S : Sys σ) (c : Call) (s : State σ)
    (h : c.readSize = none) : (callState S c s).mem = s.mem := by
  simp only [callState, h]
  split <;> simp_all

theorem hostOverwrite_length (old data : List F32) (nbytes : Nat)
    (h : nbytes / sizeof_float ≤ old.length) :
    (hostOverwrite old data nbytes).length = old.length := by
  simp only [hostOverwrite, List.length_append, List.length_take, List.length_drop]
  omega

theorem callState_read_mem_C {σ : Type} (S : Sys σ) (env : env_t) (s : State σ) :
    (callState S (Call.read_numba_oneapi_mem_buffer_from_device env 0 true 0 datasize HostPtr.C) s).mem
      = Function.update s.mem HostPtr.C (hostOverwrite (s.mem HostPtr.C)
          (S.call (Call.read_numba_oneapi_mem_buffer_from_device env 0 true 0 datasize HostPtr.C)
            (s.mem HostPtr.C) s.sys).2.1 datasize) := rfl

theorem datasize_div : datasize / sizeof_float = N := by decide

theorem deviceSteps_path {σ : Type} (S : Sys σ) (env : env_t) (s : State σ) :
    ∃ t, (deviceSteps S env s).2.trace = s.trace ++ t ∧ DevPath env (deviceSteps S env s).1 t ∧
      (deviceSteps S env s).2.mem HostPtr.A = s.mem HostPtr.A ∧
      (deviceSteps S env s).1 ≠ Outcome.fault ∧
      (datasize / sizeof_float ≤ (s.mem HostPtr.C).length →
        ((deviceSteps S env s).2.mem HostPtr.C).length = (s.mem HostPtr.C).length) := by
  refine ⟨(deviceSteps S env s).2.trace.drop s.trace.length, ?_⟩
  simp only [deviceSteps, bind_eq, pure_eq, Prog.bind_callWrapper, Prog.ite_apply, fprintf_stderr,
    Prog.bind_emit, Prog.bind_exit, Prog.bind_pure, Prog.pure_apply, ne_eq, and_assoc,
    lor_eq_zero]
  split
  · rename_i h
    simp only [callState_trace, log_trace, List.append_assoc, List.drop_left, true_and]
    refine ⟨DevPath.buffers _ _ _ h, ?_, ?_, ?_⟩
    · simp [callState_mem_of_not_read, Call.readSize]
    · simp
    · simp [callState_mem_of_not_read, Call.readSize]
  · rename_i h
    simp only [not_not] at h
    obtain ⟨h0, h1, h2⟩ := h
    split
    · rename_i hw
      simp only [callState_trace, log_trace, List.append_assoc, List.drop_left, true_and, h0, h1, h2]
      refine ⟨DevPath.writes _ _ hw, ?_, ?_, ?_⟩
      · simp [callState_mem_of_not_read, Call.readSize]
      · simp
      · simp [callState_mem_of_not_read, Call.readSize]
    · rename_i hw
      simp only [not_not] at hw
      obtain ⟨hw0, hw1⟩ := hw
      split
      · rename_i hp
        simp only [callState_trace, log_trace, List.append_assoc, List.drop_left, true_and,
          h0, h1, h2, hw0, hw1]
        refine ⟨DevPath.program _ _ hp, ?_, ?_, ?_⟩
        · simp [callState_mem_of_not_read, Call.readSize]
        · simp
        · simp [callState_mem_of_not_read, Call.readSize]
      · rename_i hp
        simp only [not_not] at hp
        obtain ⟨hp0, hp1⟩ := hp
        split
        · rename_i hk
          simp only [callState_trace, log_trace, List.append_assoc, List.drop_left, true_and,
            h0, h1, h2, hw0, hw1, hp0, hp1]
          refine ⟨DevPath.kernel _ hk, ?_, ?_, ?_⟩
          · simp [callState_mem_of_not_read, Call.readSize]
          · simp
          · simp [callState_mem_of_not_read, Call.readSize]
        · rename_i hk
          simp only [not_not] at hk
          simp only [callState_trace, log_trace, List.append_assoc, List.drop_left, true_and,
            h0, h1, h2, hw0, hw1, hp0, hp1, hk]
          refine ⟨DevPath.done _, ?_, ?_, ?_⟩
          · simp [callState_read_mem_C, callState_mem_of_not_read, Call.readSize, Function.update]
          · simp
          · intro hlen
            simp [callState_read_mem_C, callState_mem_of_not_read, Call.readSize, Function.update]
            rw [hostOverwrite_length _ _ _ hlen]

theorem cleanup_eq {σ : Type} (S : Sys σ) (s : State σ) :
    ∃ s1, cleanup S s = (Outcome.ret (), s1) ∧
      ∃ d0 d1 d2 d3 d4, s1.trace = s.trace ++ cleanupEvents d0 d1 d2 d3 d4 := by
  refine ⟨(cleanup S s).2, rfl, ?_⟩
  simp only [cleanup, bind_eq, Prog.bind_callWrapper, Prog.bind_free, free_trace,
    callState_trace, List.append_assoc, cleanupEvents, List.singleton_append]
  exact ⟨_, _, _, _, _, rfl⟩

theorem initA_length : initA.length = N := by simp [initA]
theorem initB_length : initB.length = N := by simp [initB]

theorem buildAndExecuteKernel_eq {σ : Type} (S : Sys σ) (ex : execution_ty) (s : State σ)
    (hA : mallocOk S datasize s = true)
    (hB : mallocOk S datasize (mallocState S HostPtr.A datasize s) = true)
    (hC : mallocOk S datasize (mallocState S HostPtr.B datasize
      (mallocState S HostPtr.A datasize s)) = true) :
    buildAndExecuteKernel S ex s =
        Prog.bind (deviceSteps S (selectEnv ex)) (fun _ => Prog.bind validate (fun _ => cleanup S))
          (inputState S s) ∧
      (inputState S s).mem HostPtr.A = initA ∧ (inputState S s).mem HostPtr.B = initB ∧
      ((inputState S s).mem HostPtr.C).length = N ∧
      (inputState S s).trace = s.trace ++ mallocEvents := by
  have h3 := initInput_eq (mallocState S HostPtr.C datasize (mallocState S HostPtr.B datasize
    (mallocState S HostPtr.A datasize s)))
    (by rw [mallocState_mem_other _ _ _ _ _ (by decide), mallocState_mem_other _ _ _ _ _ (by decide),
          mallocState_mem_self _ _ _ _ hA, datasize_div])
    (by rw [mallocState_mem_other _ _ _ _ _ (by decide), mallocState_mem_self _ _ _ _ hB, datasize_div])
  refine ⟨?_, ?_, ?_, ?_, ?_⟩
  · simp only [buildAndExecuteKernel, bind_eq, pure_eq, Prog.bind_malloc, hA, hB, hC, Bool.not_true,
      Prog.ite_apply, Prog.bind_pure, Bool.false_eq_true, if_false]
    rw [Prog.bind_ret _ _ _ _ _ h3]
    simp only [inputState, h3]
  · simp [inputState, h3, Function.update]
  · simp [inputState, h3, Function.update]
  · simp only [inputState, h3, Function.update]
    simp
    rw [mallocState_mem_self _ _ _ _ hC, datasize_div]
  · simp [inputState, h3, mallocEvents, hA, hB, hC]

theorem buildAndExecuteKernel_path_of_malloc {σ : Type} (S : Sys σ) (ex : execution_ty)
    (s : State σ) (hA : mallocOk S datasize s = true)
    (hB : mallocOk S datasize (mallocState S HostPtr.A datasize s) = true)
    (hC : mallocOk S datasize (mallocState S HostPtr.B datasize
      (mallocState S HostPtr.A datasize s)) = true) :
    ∃ t, (buildAndExecuteKernel S ex s).2.trace = s.trace ++ t ∧
      BekPath (selectEnv ex) (buildAndExecuteKernel S ex s).1 t ∧ t.take 3 = mallocEvents := by
  obtain ⟨heq, hmA, _, hmC, htr⟩ := buildAndExecuteKernel_eq S ex s hA hB hC
  obtain ⟨t, ht, hp, hdA, hnf, hdC⟩ := deviceSteps_path S (selectEnv ex) (inputState S s)
  rw [heq]
  rcases hd : deviceSteps S (selectEnv ex) (inputState S s) with ⟨o, s9⟩
  rw [hd] at ht hp hdA hnf hdC
  simp only at ht hp hdA hnf hdC
  cases o with
  | fault => exact absurd rfl hnf
  | exit n =>
    rw [Prog.bind_exit_of _ _ _ _ _ hd]
    cases hp with
    | buffers e0 e1 e2 h =>
      exact ⟨_, by simp [ht, htr], BekPath.buffers e0 e1 e2 h, rfl⟩
    | writes w0 w1 h =>
      exact ⟨_, by simp [ht, htr], BekPath.writes w0 w1 h, rfl⟩
    | program p0 p1 h =>
      exact ⟨_, by simp [ht, htr], BekPath.program p0 p1 h, rfl⟩
    | kernel k h =>
      exact ⟨_, by simp [ht, htr], BekPath.kernel k h, rfl⟩
  | ret u =>
    rw [Prog.bind_ret _ _ _ _ _ hd]
    cases hp with
    | done r =>
      have hlenC : (s9.mem HostPtr.C).length = N := by
        rw [hdC (by rw [hmC, datasize_div]), hmC]
      have hlenA : (s9.mem HostPtr.A).length = N := by rw [hdA, hmA, initA_length]
      cases hfm : firstMismatch (s9.mem HostPtr.C) (s9.mem HostPtr.A) 0 N with
      | none =>
        rw [Prog.bind_ret _ _ _ _ _ (validate_pass s9 (by omega) (by omega) hfm)]
        obtain ⟨s1, hc, d0, d1, d2, d3, d4, hct⟩ :=
          cleanup_eq S (s9.log (Event.stdout Msg.resultsMatch))
        rw [hc]
        refine ⟨_, ?_, BekPath.success r d0 d1 d2 d3 d4, rfl⟩
        simp [hct, ht, htr, deviceEvents]
      | some j =>
        have hj := (firstMismatch_some _ _ _ _ _).mp hfm
        rw [Prog.bind_exit_of _ _ _ _ _ (validate_fail s9 j (by omega) (by omega) hfm)]
        refine ⟨_, ?_, BekPath.mismatch r j (by omega), rfl⟩
        simp [ht, htr, deviceEvents]

theorem buildAndExecuteKernel_path {σ : Type} (S : Sys σ) (ex : execution_ty) (s : State σ) :
    ∃ t, (buildAndExecuteKernel S ex s).2.trace = s.trace ++ t ∧
      BekPath (selectEnv ex) (buildAndExecuteKernel S ex s).1 t := by
  by_cases hA : mallocOk S datasize s = true
  swap
  · simp only [Bool.not_eq_true] at hA
    have h : buildAndExecuteKernel S ex s =
        (Outcome.exit 1, (mallocState S HostPtr.A datasize s).log Event.perror) := by
      simp [buildAndExecuteKernel, bind_eq, pure_eq, Prog.bind_malloc, hA, Prog.ite_apply, perror,
        Prog.bind_emit, Prog.bind_exit]
    rw [h]
    exact ⟨_, by simp [hA], BekPath.mallocA⟩
  by_cases hB : mallocOk S datasize (mallocState S HostPtr.A datasize s) = true
  swap
  · simp only [Bool.not_eq_true] at hB
    have h : buildAndExecuteKernel S ex s =
        (Outcome.exit 1, (mallocState S HostPtr.B datasize
          (mallocState S HostPtr.A datasize s)).log Event.perror) := by
      simp [buildAndExecuteKernel, bind_eq, pure_eq, Prog.bind_malloc, hA, hB, Prog.ite_apply,
        perror, Prog.bind_emit, Prog.bind_exit, Prog.bind_pure]
    rw [h]
    exact ⟨_, by simp [hA, hB], BekPath.mallocB⟩
  by_cases hC : mallocOk S datasize (mallocState S HostPtr.B datasize
      (mallocState S HostPtr.A datasize s)) = true
  swap
  · simp only [Bool.not_eq_true] at hC
    have h : buildAndExecuteKernel S ex s =
        (Outcome.exit 1, (mallocState S HostPtr.C datasize (mallocState S HostPtr.B datasize
          (mallocState S HostPtr.A datasize s))).log Event.perror) := by
      simp [buildAndExecuteKernel, bind_eq, pure_eq, Prog.bind_malloc, hA, hB, hC, Prog.ite_apply,
        perror, Prog.bind_emit, Prog.bind_exit, Prog.bind_pure]
    rw [h]
    exact ⟨_, by simp [hA, hB, hC], BekPath.mallocC⟩
  obtain ⟨t, ht, hp, _⟩ := buildAndExecuteKernel_path_of_malloc S ex s hA hB hC
  exact ⟨t, ht, hp⟩

@[simp] theorem callRet_scripted (f : Int) (a : Option (Nat → F32)) (code : Call → Int)
    (d : List F32) (c : Call) (s : State Unit) :
    callRet (scriptedSys f a code d) c s = code c := rfl

theorem mallocOk_scripted (f : Int) (g : Nat → F32) (code : Call → Int)
    (d : List F32) (n : Nat) (s : State Unit) :
    mallocOk (scriptedSys f (some g) code d) n s = true := rfl

theorem initA_getD (j : Nat) (hj : j < N) : initA.getD j F32.nan = F32.fin false (j + 1) 0 := by
  have h1 : (j + 1) % SIZE_MAX1 = j + 1 := by
    apply Nat.mod_eq_of_lt
    unfold N at hj
    unfold SIZE_MAX1
    omega
  have h2 : j + 1 < 2 ^ 24 := by
    unfold N at hj
    omega
  simp [initA, List.getD_eq_getElem?_getD, hj, h1, F32.ofNat_exact _ h2]

theorem initB_getD (j : Nat) (hj : j < N) : initB.getD j F32.nan = F32.fin false (2 * (j + 1)) 0 := by
  have h1 : (j + 1) % SIZE_MAX1 = j + 1 := by
    apply Nat.mod_eq_of_lt
    unfold N at hj
    unfold SIZE_MAX1
    omega
  have h3 : (2 * (j + 1)) % SIZE_MAX1 = 2 * (j + 1) := by
    apply Nat.mod_eq_of_lt
    unfold N at hj
    unfold SIZE_MAX1
    omega
  have h2 : 2 * (j + 1) < 2 ^ 24 := by
    unfold N at hj
    omega
  simp [initB, List.getD_eq_getElem?_getD, hj, h1, h3, F32.ofNat_exact _ h2]

theorem firstMismatch_initA : firstMismatch initA initA 0 N = none := by
  rw [firstMismatch_none]
  intro j _ hj
  rw [initA_getD j (by omega)]
  exact F32.ne_fin_self _

theorem hostOverwrite_full (old data : List F32) (h1 : data.length = N) (h2 : old.length = N) :
    hostOverwrite old data datasize = data := by
  simp only [hostOverwrite, datasize_div]
  rw [List.take_of_length_le (by omega), List.drop_eq_nil_of_le (by omega)]
  simp

theorem hostOverwrite_nil (old : List F32) (n : Nat) : hostOverwrite old [] n = old := by
  simp [hostOverwrite]

theorem deviceSteps_eq {σ : Type} (S : Sys σ) (env : env_t) (s : State σ) :
    deviceSteps S env s =
      let c0 := Call.create_numba_oneapi_rw_mem_buffer env datasize 0
      let c1 := Call.create_numba_oneapi_rw_mem_buffer env datasize 1
      let c2 := Call.create_numba_oneapi_rw_mem_buffer env datasize 2
      let w0 := Call.write_numba_oneapi_mem_buffer_to_device env 0 true 0 datasize HostPtr.A
      let w1 := Call.write_numba_oneapi_mem_buffer_to_device env 1 true 0 datasize HostPtr.B
      let p0 := Call.create_numba_oneapi_program_from_source env 1 Source.programSource
      let p1 := Call.build_numba_oneapi_program env
      let k := Call.create_numba_oneapi_kernel env KernelName.vecadd
      let r := Call.read_numba_oneapi_mem_buffer_from_device env 0 true 0 datasize HostPtr.C
      let s1 := callState S c0 s
      let s2 := callState S c1 s1
      let s3 := callState S c2 s2
      let s4 := callState S w0 s3
      let s5 := callState S w1 s4
      let s6 := callState S p0 s5
      let s7 := callState S p1 s6
      let s8 := callState S k s7
      if ¬ (callRet S c0 s = 0 ∧ callRet S c1 s1 = 0 ∧ callRet S c2 s2 = 0) then
        (Outcome.exit 1, s3.log (Event.stderr Msg.bufferCreationFailed))
      else if ¬ (callRet S w0 s3 = 0 ∧ callRet S w1 s4 = 0) then
        (Outcome.exit 1, s5.log (Event.stderr Msg.couldNotWrite))
      else if ¬ (callRet S p0 s5 = 0 ∧ callRet S p1 s6 = 0) then
        (Outcome.exit 1, s7.log (Event.stderr Msg.couldNotCreateProgram))
      else if ¬ (callRet S k s7 = 0) then
        (Outcome.exit 1, s8.log (Event.stderr Msg.couldNotCreateKernel))
      else (Outcome.ret (), callState S r s8) := by
  simp only [deviceSteps, bind_eq, pure_eq, Prog.bind_callWrapper, Prog.ite_apply, fprintf_stderr,
    Prog.bind_emit, Prog.bind_exit, Prog.bind_pure, Prog.pure_apply, ne_eq, and_assoc,
    lor_eq_zero]

theorem call_scripted_data (f : Int) (a : Option (Nat → F32)) (code : Call → Int)
    (d : List F32) (c : Call) (h : List F32) (u : Unit) :
    ((scriptedSys f a code d).call c h u).2.1 = d := rfl

theorem mallocState_mem_eq {σ : Type} (S : Sys σ) (p : HostPtr) (n : Nat) (s : State σ)
    (g : Nat → F32) (h : (S.malloc n s.sys).1 = some g) :
    (mallocState S p n s).mem p = (List.range (n / sizeof_float)).map g := by
  simp only [mallocState, malloc, h]
  simp

theorem inputState_mem_C {σ : Type} (S : Sys σ) (s : State σ) (g : Nat → F32)
    (hA : mallocOk S datasize s = true)
    (hB : mallocOk S datasize (mallocState S HostPtr.A datasize s) = true)
    (hC : (S.malloc datasize (mallocState S HostPtr.B datasize
      (mallocState S HostPtr.A datasize s)).sys).1 = some g) :
    (inputState S s).mem HostPtr.C = (List.range N).map g := by
  have h3 := initInput_eq (mallocState S HostPtr.C datasize (mallocState S HostPtr.B datasize
    (mallocState S HostPtr.A datasize s)))
    (by rw [mallocState_mem_other _ _ _ _ _ (by decide), mallocState_mem_other _ _ _ _ _ (by decide),
          mallocState_mem_self _ _ _ _ hA, datasize_div])
    (by rw [mallocState_mem_other _ _ _ _ _ (by decide), mallocState_mem_self _ _ _ _ hB, datasize_div])
  simp only [inputState, h3, Function.update]
  simp
  rw [mallocState_mem_eq _ _ _ _ g hC, datasize_div]

theorem scripted_observe (f : Int) (g : Nat → F32) (code : Call → Int) (deliver : List F32)
    (ex : execution_ty) :
    observe (buildAndExecuteKernel (scriptedSys f (some g) code deliver) ex (State.init ())) =
      if ¬ (code (Call.create_numba_oneapi_rw_mem_buffer (selectEnv ex) datasize 0) = 0 ∧
          code (Call.create_numba_oneapi_rw_mem_buffer (selectEnv ex) datasize 1) = 0 ∧
          code (Call.create_numba_oneapi_rw_mem_buffer (selectEnv ex) datasize 2) = 0) then
        (Outcome.exit 1, mallocEvents ++ createEvents (selectEnv ex)
          (code (Call.create_numba_oneapi_rw_mem_buffer (selectEnv ex) datasize 0))
          (code (Call.create_numba_oneapi_rw_mem_buffer (selectEnv ex) datasize 1))
          (code (Call.create_numba_oneapi_rw_mem_buffer (selectEnv ex) datasize 2)) ++
          [Event.stderr Msg.bufferCreationFailed])
      else if ¬ (code (Call.write_numba_oneapi_mem_buffer_to_device (selectEnv ex) 0 true 0 datasize
            HostPtr.A) = 0 ∧
          code (Call.write_numba_oneapi_mem_buffer_to_device (selectEnv ex) 1 true 0 datasize
            HostPtr.B) = 0) then
        (Outcome.exit 1, mallocEvents ++ createEvents (selectEnv ex) 0 0 0 ++
          writeEvents (selectEnv ex)
            (code (Call.write_numba_oneapi_mem_buffer_to_device (selectEnv ex) 0 true 0 datasize
              HostPtr.A))
            (code (Call.write_numba_oneapi_mem_buffer_to_device (selectEnv ex) 1 true 0 datasize
              HostPtr.B)) ++ [Event.stderr Msg.couldNotWrite])
      else if ¬ (code (Call.create_numba_oneapi_program_from_source (selectEnv ex) 1
            Source.programSource) = 0 ∧
          code (Call.build_numba_oneapi_program (selectEnv ex)) = 0) then
        (Outcome.exit 1, mallocEvents ++ createEvents (selectEnv ex) 0 0 0 ++
          writeEvents (selectEnv ex) 0 0 ++
          programEvents (selectEnv ex)
            (code (Call.create_numba_oneapi_program_from_source (selectEnv ex) 1
              Source.programSource))
            (code (Call.build_numba_oneapi_program (selectEnv ex))) ++
          [Event.stderr Msg.couldNotCreateProgram])
      else if ¬ (code (Call.create_numba_oneapi_kernel (selectEnv ex) KernelName.vecadd) = 0) then
        (Outcome.exit 1, mallocEvents ++ createEvents (selectEnv ex) 0 0 0 ++
          writeEvents (selectEnv ex) 0 0 ++ programEvents (selectEnv ex) 0 0 ++
          [kernelEvent (selectEnv ex)
            (code (Call.create_numba_oneapi_kernel (selectEnv ex) KernelName.vecadd)),
            Event.stderr Msg.couldNotCreateKernel])
      else
        (firstMismatch (hostOverwrite ((List.range N).map g) deliver datasize) initA 0 N).elim
          (Outcome.ret (), mallocEvents ++ deviceEvents (selectEnv ex)
            (code (Call.read_numba_oneapi_mem_buffer_from_device (selectEnv ex) 0 true 0 datasize
              HostPtr.C)) ++ [Event.stdout Msg.resultsMatch] ++
            cleanupEvents (code Call.destroy_numba_oneapi_kernel)
              (code Call.destroy_numba_oneapi_program)
              (code (Call.destroy_numba_oneapi_rw_mem_buffer 0))
              (code (Call.destroy_numba_oneapi_rw_mem_buffer 1))
              (code (Call.destroy_numba_oneapi_rw_mem_buffer 2)))
          (fun j => (Outcome.exit 1, mallocEvents ++ deviceEvents (selectEnv ex)
            (code (Call.read_numba_oneapi_mem_buffer_from_device (selectEnv ex) 0 true 0 datasize
              HostPtr.C)) ++
            [Event.stdout (Msg.positionWrong j), Event.stdout Msg.stopValidating])) := by
  obtain ⟨heq, hmA, _, hmC, htr⟩ := buildAndExecuteKernel_eq (scriptedSys f (some g) code deliver)
    ex (State.init ()) (mallocOk_scripted _ _ _ _ _ _) (mallocOk_scripted _ _ _ _ _ _)
    (mallocOk_scripted _ _ _ _ _ _)
  have hC0 := inputState_mem_C (scriptedSys f (some g) code deliver) (State.init ()) g
    (mallocOk_scripted _ _ _ _ _ _) (mallocOk_scripted _ _ _ _ _ _) rfl
  rw [show (State.init ()).trace = [] from rfl, List.nil_append] at htr
  rw [heq]
  have hd := deviceSteps_eq (scriptedSys f (some g) code deliver) (selectEnv ex)
    (inputState (scriptedSys f (some g) code deliver) (State.init ()))
  simp only [callRet_scripted] at hd
  split
  · rename_i h1
    rw [if_pos h1] at hd
    rw [Prog.bind_exit_of _ _ _ _ _ hd]
    simp [observe, htr, createEvents]
  · rename_i h1
    rw [if_neg h1] at hd
    simp only [not_not] at h1
    split
    · rename_i h2
      rw [if_pos h2] at hd
      rw [Prog.bind_exit_of _ _ _ _ _ hd]
      simp [observe, htr, createEvents, writeEvents, h1]
    · rename_i h2
      rw [if_neg h2] at hd
      simp only [not_not] at h2
      split
      · rename_i h3
        rw [if_pos h3] at hd
        rw [Prog.bind_exit_of _ _ _ _ _ hd]
        simp [observe, htr, createEvents, writeEvents, programEvents, h1, h2]
      · rename_i h3
        rw [if_neg h3] at hd
        simp only [not_not] at h3
        split
        · rename_i h4
          rw [if_pos h4] at hd
          rw [Prog.bind_exit_of _ _ _ _ _ hd]
          simp [observe, htr, createEvents, writeEvents, programEvents, kernelEvent, h1, h2, h3]
        · rename_i h4
          rw [if_neg h4] at hd
          simp only [not_not] at h4
          have hd1 : deviceSteps (scriptedSys f (some g) code deliver) (selectEnv ex)
              (inputState (scriptedSys f (some g) code deliver) (State.init ())) =
              (Outcome.ret (), (deviceSteps (scriptedSys f (some g) code deliver) (selectEnv ex)
                (inputState (scriptedSys f (some g) code deliver) (State.init ()))).2) := by
            rw [hd]
          have hA9 : (deviceSteps (scriptedSys f (some g) code deliver) (selectEnv ex)
              (inputState (scriptedSys f (some g) code deliver) (State.init ()))).2.mem HostPtr.A =
              initA := by
            rw [hd]
            simp only [callState_read_mem_C]
            simp [callState_mem_of_not_read, Call.readSize, Function.update, hmA]
          have hC9 : (deviceSteps (scriptedSys f (some g) code deliver) (selectEnv ex)
              (inputState (scriptedSys f (some g) code deliver) (State.init ()))).2.mem HostPtr.C =
              hostOverwrite ((List.range N).map g) deliver datasize := by
            rw [hd]
            simp only [callState_read_mem_C]
            simp [callState_mem_of_not_read, Call.readSize, Function.update, hC0, call_scripted_data]
          have ht9 : (deviceSteps (scriptedSys f (some g) code deliver) (selectEnv ex)
              (inputState (scriptedSys f (some g) code deliver) (State.init ()))).2.trace =
              mallocEvents ++ deviceEvents (selectEnv ex)
                (code (Call.read_numba_oneapi_mem_buffer_from_device (selectEnv ex) 0 true 0 datasize
                  HostPtr.C)) := by
            rw [hd]
            simp [htr, h1, h2, h3, h4, deviceEvents, createEvents, writeEvents, programEvents,
              kernelEvent, readEvent]
          have hlen : (hostOverwrite ((List.range N).map g) deliver datasize).length = N := by
            rw [hostOverwrite_length _ _ _ (by simp [datasize_div])]
            simp
          rw [Prog.bind_ret _ _ _ _ _ hd1]
          cases hfm : firstMismatch (hostOverwrite ((List.range N).map g) deliver datasize) initA 0 N with
          | none =>
            rw [Prog.bind_ret _ _ _ _ _ (validate_pass _ (by rw [hC9, hlen])
              (by rw [hA9, initA_length]) (by rw [hC9, hA9]; exact hfm))]
            simp only [observe, cleanup, bind_eq, Prog.bind_callWrapper, Prog.bind_free, free_trace,
              callState_trace, log_trace, callRet_scripted, ht9, Option.elim]
            simp [cleanupEvents]
            rfl
          | some j =>
            have hj := (firstMismatch_some _ _ _ _ _).mp hfm
            rw [Prog.bind_exit_of _ _ _ _ _ (validate_fail _ j (by rw [hC9, hlen]; omega)
              (by rw [hA9, initA_length]; omega) (by rw [hC9, hA9]; exact hfm))]
            simp only [observe, log_trace, ht9, Option.elim]
            simp

theorem run_path {σ : Type} (S : Sys σ) (ex : execution_ty) (sys : σ) :
    BekPath (selectEnv ex) (buildAndExecuteKernel S ex (State.init sys)).1
      (buildAndExecuteKernel S ex (State.init sys)).2.trace := by
  obtain ⟨t, ht, hp⟩ := buildAndExecuteKernel_path S ex (State.init sys)
  rw [show (State.init sys).trace = [] from rfl, List.nil_append] at ht
  rw [ht]
  exact hp

theorem run_path_of_malloc {σ : Type} (S : Sys σ) (ex : execution_ty) (sys : σ)
    (hA : mallocOk S datasize (State.init sys) = true)
    (hB : mallocOk S datasize (mallocState S HostPtr.A datasize (State.init sys)) = true)
    (hC : mallocOk S datasize (mallocState S HostPtr.B datasize
      (mallocState S HostPtr.A datasize (State.init sys))) = true) :
    BekPath (selectEnv ex) (buildAndExecuteKernel S ex (State.init sys)).1
      (buildAndExecuteKernel S ex (State.init sys)).2.trace ∧
    (buildAndExecuteKernel S ex (State.init sys)).2.trace.take 3 = mallocEvents := by
  obtain ⟨t, ht, hp, h3⟩ := buildAndExecuteKernel_path_of_malloc S ex (State.init sys) hA hB hC
  rw [show (State.init sys).trace = [] from rfl, List.nil_append] at ht
  rw [ht]
  exact ⟨hp, h3⟩

/-- C5: in a run of `buildAndExecuteKernel` whose three host allocations succeed, the
three buffer creations are all called, whatever codes `e0 e1 e2` they return; the run
stops there with the message of the group on stderr and exit status 1 exactly when one
of the codes is nonzero; otherwise the two writes are both called, and the same holds
for them and then for program creation with program build.  In every run, the message
of a group is on stderr exactly when a call of that group returned a nonzero code, and a
message on stderr comes with exit status 1. -/
theorem or_group_calls_all_made_and_abort_iff_nonzero {σ : Type} (S : Sys σ)
    (ex : execution_ty) (sys : σ)
    (hA : mallocOk S datasize (State.init sys) = true)
    (hB : mallocOk S datasize (mallocState S HostPtr.A datasize (State.init sys)) = true)
    (hC : mallocOk S datasize (mallocState S HostPtr.B datasize
      (mallocState S HostPtr.A datasize (State.init sys))) = true) :
    (∃ e0 e1 e2 : Int,
      (buildAndExecuteKernel S ex (State.init sys)).2.trace.take 6 =
        mallocEvents ++ createEvents (selectEnv ex) e0 e1 e2 ∧
      ((e0 ≠ 0 ∨ e1 ≠ 0 ∨ e2 ≠ 0) ↔
        (buildAndExecuteKernel S ex (State.init sys)).1 = Outcome.exit 1 ∧
        (buildAndExecuteKernel S ex (State.init sys)).2.trace =
          mallocEvents ++ createEvents (selectEnv ex) e0 e1 e2 ++
            [Event.stderr Msg.bufferCreationFailed]) ∧
      (e0 = 0 ∧ e1 = 0 ∧ e2 = 0 →
        ∃ w0 w1 : Int,
          (buildAndExecuteKernel S ex (State.init sys)).2.trace.take 8 =
            mallocEvents ++ createEvents (selectEnv ex) 0 0 0 ++
              writeEvents (selectEnv ex) w0 w1 ∧
          ((w0 ≠ 0 ∨ w1 ≠ 0) ↔
            (buildAndExecuteKernel S ex (State.init sys)).1 = Outcome.exit 1 ∧
            (buildAndExecuteKernel S ex (State.init sys)).2.trace =
              mallocEvents ++ createEvents (selectEnv ex) 0 0 0 ++
                writeEvents (selectEnv ex) w0 w1 ++ [Event.stderr Msg.couldNotWrite]) ∧
          (w0 = 0 ∧ w1 = 0 →
            ∃ p0 p1 : Int,
              (buildAndExecuteKernel S ex (State.init sys)).2.trace.take 10 =
                mallocEvents ++ createEvents (selectEnv ex) 0 0 0 ++
                  writeEvents (selectEnv ex) 0 0 ++ programEvents (selectEnv ex) p0 p1 ∧
              ((p0 ≠ 0 ∨ p1 ≠ 0) ↔
                (buildAndExecuteKernel S ex (State.init sys)).1 = Outcome.exit 1 ∧
                (buildAndExecuteKernel S ex (State.init sys)).2.trace =
                  mallocEvents ++ createEvents (selectEnv ex) 0 0 0 ++
                    writeEvents (selectEnv ex) 0 0 ++ programEvents (selectEnv ex) p0 p1 ++
                    [Event.stderr Msg.couldNotCreateProgram])))) ∧
    (Event.stderr Msg.bufferCreationFailed ∈ (buildAndExecuteKernel S ex (State.init sys)).2.trace ↔
      ∃ c r, Event.call c r ∈ (buildAndExecuteKernel S ex (State.init sys)).2.trace ∧
        c.stage = 1 ∧ r ≠ 0) ∧
    (Event.stderr Msg.couldNotWrite ∈ (buildAndExecuteKernel S ex (State.init sys)).2.trace ↔
      ∃ c r, Event.call c r ∈ (buildAndExecuteKernel S ex (State.init sys)).2.trace ∧
        c.stage = 2 ∧ r ≠ 0) ∧
    (Event.stderr Msg.couldNotCreateProgram ∈
        (buildAndExecuteKernel S ex (State.init sys)).2.trace ↔
      ∃ c r, Event.call c r ∈ (buildAndExecuteKernel S ex (State.init sys)).2.trace ∧
        c.stage = 3 ∧ r ≠ 0) ∧
    (∀ m, Event.stderr m ∈ (buildAndExecuteKernel S ex (State.init sys)).2.trace →
      (buildAndExecuteKernel S ex (State.init sys)).1 = Outcome.exit 1) := by
  obtain ⟨hp, h3⟩ := run_path_of_malloc S ex sys hA hB hC
  generalize (buildAndExecuteKernel S ex (State.init sys)).1 = o at hp
  generalize (buildAndExecuteKernel S ex (State.init sys)).2.trace = t at hp h3
  constructor
  · cases hp
    · simp [mallocEvents] at h3
    · simp [mallocEvents] at h3
    · simp [mallocEvents] at h3
    · rename_i e0 e1 e2 h
      refine ⟨e0, e1, e2, rfl, ?_, ?_⟩
      · simp only [and_self, iff_true]
        omega
      · intro h0
        exact absurd h0 h
    · rename_i w0 w1 h
      refine ⟨0, 0, 0, rfl, by simp [mallocEvents, createEvents, writeEvents, programEvents,
            kernelEvent, deviceEvents, readEvent, cleanupEvents], fun _ =>
        ⟨w0, w1, rfl, ?_, fun h0 => absurd h0 h⟩⟩
      simp only [and_self, iff_true]
      omega
    · rename_i p0 p1 h
      refine ⟨0, 0, 0, rfl, by simp [mallocEvents, createEvents, writeEvents, programEvents,
            kernelEvent, deviceEvents, readEvent, cleanupEvents], fun _ =>
        ⟨0, 0, rfl, by simp [mallocEvents, createEvents, writeEvents, programEvents,
            kernelEvent, deviceEvents, readEvent, cleanupEvents], fun _ =>
          ⟨p0, p1, rfl, ?_⟩⟩⟩
      simp only [and_self, iff_true]
      omega
    all_goals
      refine ⟨0, 0, 0, rfl, by simp [mallocEvents, createEvents, writeEvents, programEvents,
            kernelEvent, deviceEvents, readEvent, cleanupEvents], fun _ =>
        ⟨0, 0, rfl, by simp [mallocEvents, createEvents, writeEvents, programEvents,
            kernelEvent, deviceEvents, readEvent, cleanupEvents], fun _ =>
          ⟨0, 0, rfl, by simp [mallocEvents, createEvents, writeEvents, programEvents,
            kernelEvent, deviceEvents, readEvent, cleanupEvents]⟩⟩⟩
  · cases hp <;>
      simp [mallocEvents, deviceEvents, createEvents, writeEvents, programEvents, kernelEvent,
        readEvent, cleanupEvents, Call.stage, or_and_right, exists_or, and_assoc]
    all_goals omega

/-- An instance of C5: in `okSys` the three allocations succeed. -/
theorem or_group_calls_all_made_and_abort_iff_nonzero_witness :
    mallocOk okSys datasize (State.init ()) = true ∧
    ∃ e0 e1 e2 : Int,
      (buildAndExecuteKernel okSys execution_ty.ON_CPU (State.init ())).2.trace.take 6 =
        mallocEvents ++ createEvents env_t.first_cpu_env e0 e1 e2 :=
  ⟨mallocOk_scripted _ _ _ _ _ _,
    (or_group_calls_all_made_and_abort_iff_nonzero okSys execution_ty.ON_CPU ()
      (mallocOk_scripted _ _ _ _ _ _) (mallocOk_scripted _ _ _ _ _ _)
      (mallocOk_scripted _ _ _ _ _ _)).1.imp
      (fun _ h => h.imp (fun _ h => h.imp (fun _ h => h.1)))⟩

theorem main_failure_eq {σ : Type} (S : Sys σ) (s : State σ)
    (h : callRet S Call.create_numba_oneapi_runtime s = S.NUMBA_ONEAPI_FAILURE) :
    main S s = (Outcome.ret S.NUMBA_ONEAPI_FAILURE,
      callState S Call.create_numba_oneapi_runtime s) := by
  simp only [main, bind_eq, pure_eq, Prog.bind_callWrapper, h, if_true, Prog.pure_apply]

/-- C1 (amended): when one of the eight checked wrapper calls of `buildAndExecuteKernel`
(a buffer creation, a write, program creation, program build, kernel creation) returns a
nonzero code, the run ends with exit status 1, the last event is the message of that
call's check on stderr, no call of a later step is made and there is neither validation
output nor cleanup.  In `main`, when runtime creation returns `NUMBA_ONEAPI_FAILURE`, the
program makes no further call, prints nothing and returns that code. -/
theorem checked_call_failure_aborts {σ : Type} (S : Sys σ) (ex : execution_ty) (sys : σ) :
    (∀ c r m, Event.call c r ∈ (buildAndExecuteKernel S ex (State.init sys)).2.trace →
      r ≠ 0 → c.abortMsg = some m →
      (buildAndExecuteKernel S ex (State.init sys)).1 = Outcome.exit 1 ∧
      (buildAndExecuteKernel S ex (State.init sys)).2.trace.getLast? = some (Event.stderr m) ∧
      (∀ c1 r1, Event.call c1 r1 ∈ (buildAndExecuteKernel S ex (State.init sys)).2.trace →
        c1.stage ≤ c.stage) ∧
      (∀ e ∈ (buildAndExecuteKernel S ex (State.init sys)).2.trace, e.isLate = false)) ∧
    (callRet S Call.create_numba_oneapi_runtime (State.init sys) = S.NUMBA_ONEAPI_FAILURE →
      (main S (State.init sys)).1 = Outcome.ret S.NUMBA_ONEAPI_FAILURE ∧
      (main S (State.init sys)).2.trace =
        [Event.call Call.create_numba_oneapi_runtime S.NUMBA_ONEAPI_FAILURE]) := by
  constructor
  · have hp := run_path S ex sys
    generalize (buildAndExecuteKernel S ex (State.init sys)).1 = o at hp
    generalize (buildAndExecuteKernel S ex (State.init sys)).2.trace = t at hp
    intro c r m hc hr hm
    cases hp <;>
      simp only [mallocEvents, deviceEvents, createEvents, writeEvents, programEvents,
        kernelEvent, readEvent, cleanupEvents, List.cons_append, List.nil_append,
        List.append_assoc, List.mem_cons, List.mem_singleton, Event.call.injEq, reduceCtorEq,
        false_or, or_false, List.not_mem_nil] at hc ⊢
    all_goals
      repeat
        rcases hc with ⟨rfl, rfl⟩ | hc
        · first
          | exact absurd rfl hr
          | (simp only [Call.abortMsg, Option.some.injEq] at hm
             subst hm
             simp [Call.stage, Event.isLate, or_imp, forall_and])
          | simp [Call.abortMsg] at hm
  · intro h
    rw [main_failure_eq S _ h]
    refine ⟨rfl, ?_⟩
    simp only [callState_trace, h]
    rfl

theorem hostOverwrite_initA (g : Nat → F32) :
    hostOverwrite ((List.range N).map g) initA datasize = initA :=
  hostOverwrite_full _ _ initA_length (by simp)

theorem firstMismatch_nan :
    firstMismatch ((List.range N).map (fun _ => F32.nan)) initA 0 N = some 0 := by
  rw [firstMismatch_some]
  refine ⟨Nat.le_refl 0, by decide, ?_, fun k _ hk => absurd hk (Nat.not_lt_zero k)⟩
  have h0 : 0 < N := by decide
  rw [List.getD_eq_getElem?_getD, List.getElem?_map, List.getElem?_range h0]
  exact F32.ne_nan_left _

theorem okSys_observe (ex : execution_ty) :
    observe (buildAndExecuteKernel okSys ex (State.init ())) =
      (Outcome.ret (), mallocEvents ++ deviceEvents (selectEnv ex) 0 ++
        [Event.stdout Msg.resultsMatch] ++ cleanupEvents 0 0 0 0 0) := by
  unfold okSys
  rw [scripted_observe, hostOverwrite_initA, firstMismatch_initA]
  simp

theorem deafSys_observe (ex : execution_ty) :
    observe (buildAndExecuteKernel deafSys ex (State.init ())) =
      (Outcome.exit 1, mallocEvents ++ deviceEvents (selectEnv ex) 0 ++
        [Event.stdout (Msg.positionWrong 0), Event.stdout Msg.stopValidating]) := by
  unfold deafSys
  rw [scripted_observe, hostOverwrite_nil, firstMismatch_nan]
  simp

theorem failSys_create_observe :
    observe (buildAndExecuteKernel
        (failSys (Call.create_numba_oneapi_rw_mem_buffer env_t.first_cpu_env datasize 0))
        execution_ty.ON_CPU (State.init ())) =
      (Outcome.exit 1, mallocEvents ++ createEvents env_t.first_cpu_env 7 0 0 ++
        [Event.stderr Msg.bufferCreationFailed]) := by
  unfold failSys
  rw [scripted_observe]
  simp [selectEnv]

theorem failSys_read_observe :
    observe (buildAndExecuteKernel
        (failSys (Call.read_numba_oneapi_mem_buffer_from_device env_t.first_cpu_env 0 true 0
          datasize HostPtr.C))
        execution_ty.ON_CPU (State.init ())) =
      (Outcome.ret (), mallocEvents ++ deviceEvents env_t.first_cpu_env 7 ++
        [Event.stdout Msg.resultsMatch] ++ cleanupEvents 0 0 0 0 0) := by
  unfold failSys
  rw [scripted_observe, hostOverwrite_initA, firstMismatch_initA]
  simp [selectEnv]

theorem observe_fst {σ α : Type} (r : Outcome α × State σ) (o : Outcome α) (t : List Event)
    (h : observe r = (o, t)) : r.1 = o := congrArg Prod.fst h

theorem observe_snd {σ α : Type} (r : Outcome α × State σ) (o : Outcome α) (t : List Event)
    (h : observe r = (o, t)) : r.2.trace = t := congrArg Prod.snd h

/-- C1 does not hold as stated.  (1) Runtime creation returning the nonzero code -1 makes
`main` return -1 with nothing written to stderr.  (2) When the first buffer creation
returns 7 the other two creations are still called before the program stops.  (3) When
the read returns 7 the run goes on: it prints "Results Match", runs the cleanup and
returns normally. -/
theorem nonzero_code_without_message_or_stop :
    (callRet noRuntimeSys Call.create_numba_oneapi_runtime (State.init ()) = -1 ∧
      (main noRuntimeSys (State.init ())).1 = Outcome.ret (-1) ∧
      (main noRuntimeSys (State.init ())).2.trace =
        [Event.call Call.create_numba_oneapi_runtime (-1)]) ∧
    (buildAndExecuteKernel
        (failSys (Call.create_numba_oneapi_rw_mem_buffer env_t.first_cpu_env datasize 0))
        execution_ty.ON_CPU (State.init ())).2.trace =
      [Event.malloc HostPtr.A datasize true, Event.malloc HostPtr.B datasize true,
        Event.malloc HostPtr.C datasize true,
        Event.call (Call.create_numba_oneapi_rw_mem_buffer env_t.first_cpu_env datasize 0) 7,
        Event.call (Call.create_numba_oneapi_rw_mem_buffer env_t.first_cpu_env datasize 1) 0,
        Event.call (Call.create_numba_oneapi_rw_mem_buffer env_t.first_cpu_env datasize 2) 0,
        Event.stderr Msg.bufferCreationFailed] ∧
    ((buildAndExecuteKernel
        (failSys (Call.read_numba_oneapi_mem_buffer_from_device env_t.first_cpu_env 0 true 0
          datasize HostPtr.C))
        execution_ty.ON_CPU (State.init ())).1 = Outcome.ret () ∧
      (buildAndExecuteKernel
        (failSys (Call.read_numba_oneapi_mem_buffer_from_device env_t.first_cpu_env 0 true 0
          datasize HostPtr.C))
        execution_ty.ON_CPU (State.init ())).2.trace =
      mallocEvents ++ deviceEvents env_t.first_cpu_env 7 ++ [Event.stdout Msg.resultsMatch] ++
        cleanupEvents 0 0 0 0 0) := by
  refine ⟨⟨rfl, ?_, ?_⟩, ?_, ?_, ?_⟩
  · rw [main_failure_eq noRuntimeSys _ rfl]
    rfl
  · rw [main_failure_eq noRuntimeSys _ rfl]
    rfl
  · rw [observe_snd _ _ _ failSys_create_observe]
    rfl
  · exact observe_fst _ _ _ failSys_read_observe
  · exact observe_snd _ _ _ failSys_read_observe

/-- An instance of C1 (amended): the run in which the first buffer creation returns 7, and
the run of `main` in which runtime creation returns `NUMBA_ONEAPI_FAILURE`. -/
theorem checked_call_failure_aborts_witness :
    ((buildAndExecuteKernel
        (failSys (Call.create_numba_oneapi_rw_mem_buffer env_t.first_cpu_env datasize 0))
        execution_ty.ON_CPU (State.init ())).1 = Outcome.exit 1 ∧
      (buildAndExecuteKernel
        (failSys (Call.create_numba_oneapi_rw_mem_buffer env_t.first_cpu_env datasize 0))
        execution_ty.ON_CPU (State.init ())).2.trace.getLast? =
          some (Event.stderr Msg.bufferCreationFailed)) ∧
    ((main noRuntimeSys (State.init ())).1 = Outcome.ret (-1) ∧
      (main noRuntimeSys (State.init ())).2.trace =
        [Event.call Call.create_numba_oneapi_runtime (-1)]) :=
  ⟨⟨((checked_call_failure_aborts
        (failSys (Call.create_numba_oneapi_rw_mem_buffer env_t.first_cpu_env datasize 0))
        execution_ty.ON_CPU ()).1
      (Call.create_numba_oneapi_rw_mem_buffer env_t.first_cpu_env datasize 0) 7
      Msg.bufferCreationFailed
      (by rw [observe_snd _ _ _ failSys_create_observe]; simp [mallocEvents, createEvents])
      (by decide) rfl).1,
    ((checked_call_failure_aborts
        (failSys (Call.create_numba_oneapi_rw_mem_buffer env_t.first_cpu_env datasize 0))
        execution_ty.ON_CPU ()).1
      (Call.create_numba_oneapi_rw_mem_buffer env_t.first_cpu_env datasize 0) 7
      Msg.bufferCreationFailed
      (by rw [observe_snd _ _ _ failSys_create_observe]; simp [mallocEvents, createEvents])
      (by decide) rfl).2.1⟩,
    (checked_call_failure_aborts noRuntimeSys execution_ty.ON_CPU ()).2 rfl⟩

/-- C2 does not hold as stated: in the run of `okSys`, where every wrapper call returns 0,
the wrapper calls are the fourteen of `successCalls`; kernel creation is directly
followed by the read, and no call executes a kernel. -/
theorem no_kernel_execution_in_successful_run :
    (∀ c r, Event.call c r ∈ (buildAndExecuteKernel okSys execution_ty.ON_CPU
        (State.init ())).2.trace → r = 0) ∧
    wrapperCalls (buildAndExecuteKernel okSys execution_ty.ON_CPU (State.init ())).2.trace =
      successCalls env_t.first_cpu_env ∧
    ¬ ∃ c ∈ wrapperCalls (buildAndExecuteKernel okSys execution_ty.ON_CPU
        (State.init ())).2.trace, c.isKernelExecution = true := by
  rw [observe_snd _ _ _ (okSys_observe execution_ty.ON_CPU)]
  simp [mallocEvents, deviceEvents, createEvents, writeEvents, programEvents, kernelEvent,
    readEvent, cleanupEvents, wrapperCalls, Event.toCall, successCalls, selectEnv,
    Call.isKernelExecution, or_imp, forall_and]

/-- C2 (amended): no run of `buildAndExecuteKernel` executes the kernel: the trace has no
kernel-execution call (the enqueue is compiled out), and when kernel creation returns 0
the very next event is the read of `buffers[0]` into `C`. -/
theorem kernel_is_never_executed {σ : Type} (S : Sys σ) (ex : execution_ty) (sys : σ) :
    (∀ c ∈ wrapperCalls (buildAndExecuteKernel S ex (State.init sys)).2.trace,
      c.isKernelExecution = false) ∧
    (Event.call (Call.create_numba_oneapi_kernel (selectEnv ex) KernelName.vecadd) 0 ∈
        (buildAndExecuteKernel S ex (State.init sys)).2.trace →
      ∃ pre post r, (buildAndExecuteKernel S ex (State.init sys)).2.trace =
        pre ++ [Event.call (Call.create_numba_oneapi_kernel (selectEnv ex) KernelName.vecadd) 0,
          Event.call (Call.read_numba_oneapi_mem_buffer_from_device (selectEnv ex) 0 true 0
            datasize HostPtr.C) r] ++ post) := by
  have hp := run_path S ex sys
  generalize (buildAndExecuteKernel S ex (State.init sys)).1 = o at hp
  generalize (buildAndExecuteKernel S ex (State.init sys)).2.trace = t at hp
  cases hp
  case mismatch r i hi =>
    refine ⟨by simp [mallocEvents, deviceEvents, createEvents, writeEvents, programEvents,
      kernelEvent, readEvent, wrapperCalls, Event.toCall, Call.isKernelExecution], fun _ => ?_⟩
    exact ⟨mallocEvents ++ createEvents (selectEnv ex) 0 0 0 ++ writeEvents (selectEnv ex) 0 0 ++
      programEvents (selectEnv ex) 0 0,
      [Event.stdout (Msg.positionWrong i), Event.stdout Msg.stopValidating], r,
      by simp [deviceEvents, kernelEvent, readEvent]⟩
  case success r d0 d1 d2 d3 d4 =>
    refine ⟨by simp [mallocEvents, deviceEvents, createEvents, writeEvents, programEvents,
      kernelEvent, readEvent, cleanupEvents, wrapperCalls, Event.toCall,
      Call.isKernelExecution], fun _ => ?_⟩
    exact ⟨mallocEvents ++ createEvents (selectEnv ex) 0 0 0 ++ writeEvents (selectEnv ex) 0 0 ++
      programEvents (selectEnv ex) 0 0,
      [Event.stdout Msg.resultsMatch] ++ cleanupEvents d0 d1 d2 d3 d4, r,
      by simp [deviceEvents, kernelEvent, readEvent]⟩
  all_goals
    simp [mallocEvents, deviceEvents, createEvents, writeEvents, programEvents, kernelEvent,
      readEvent, cleanupEvents, wrapperCalls, Event.toCall, Call.isKernelExecution]
  all_goals
    intro h
    exact absurd h.symm ‹_›

/-- An instance of C2 (amended): the run of `okSys`. -/
theorem kernel_is_never_executed_witness :
    ∃ pre post r, (buildAndExecuteKernel okSys execution_ty.ON_CPU (State.init ())).2.trace =
      pre ++ [Event.call (Call.create_numba_oneapi_kernel env_t.first_cpu_env KernelName.vecadd) 0,
        Event.call (Call.read_numba_oneapi_mem_buffer_from_device env_t.first_cpu_env 0 true 0
          datasize HostPtr.C) r] ++ post :=
  (kernel_is_never_executed okSys execution_ty.ON_CPU ()).2
    (by rw [observe_snd _ _ _ (okSys_observe execution_ty.ON_CPU)]
        simp [mallocEvents, deviceEvents, kernelEvent, selectEnv])

theorem okSys_codes_zero (ex : execution_ty) :
    ∀ c r, Event.call c r ∈ (buildAndExecuteKernel okSys ex (State.init ())).2.trace → r = 0 := by
  rw [observe_snd _ _ _ (okSys_observe ex)]
  simp [mallocEvents, deviceEvents, createEvents, writeEvents, programEvents, kernelEvent,
    readEvent, cleanupEvents, or_imp, forall_and]

/-- C7 does not hold as stated: in the run of `deafSys` every wrapper call returns 0, but the
read leaves `C` different from `A`, validation stops the program, and the wrapper calls
are only the first nine: no destroy call is made. -/
theorem all_zero_run_without_destroy_calls :
    (∀ c r, Event.call c r ∈ (buildAndExecuteKernel deafSys execution_ty.ON_CPU
        (State.init ())).2.trace → r = 0) ∧
    (buildAndExecuteKernel deafSys execution_ty.ON_CPU (State.init ())).1 = Outcome.exit 1 ∧
    wrapperCalls (buildAndExecuteKernel deafSys execution_ty.ON_CPU (State.init ())).2.trace =
      (successCalls env_t.first_cpu_env).take 9 ∧
    wrapperCalls (buildAndExecuteKernel deafSys execution_ty.ON_CPU (State.init ())).2.trace ≠
      successCalls env_t.first_cpu_env := by
  rw [observe_snd _ _ _ (deafSys_observe execution_ty.ON_CPU),
    observe_fst _ _ _ (deafSys_observe execution_ty.ON_CPU)]
  simp [mallocEvents, deviceEvents, createEvents, writeEvents, programEvents, kernelEvent,
    readEvent, wrapperCalls, Event.toCall, successCalls, selectEnv, or_imp, forall_and]

/-- C7 (amended): on the path of `buildAndExecuteKernel` where every wrapper call returns
0 and the function returns normally (the host allocations succeed and validation
passes), the wrapper calls are exactly the fourteen of `successCalls`, calls of nine
distinct wrapper functions; and on no path at all is the kernel-enqueue function
called. -/
theorem wrapper_call_sequence_on_success {σ : Type} (S : Sys σ) (ex : execution_ty) (sys : σ) :
    ((∀ c r, Event.call c r ∈ (buildAndExecuteKernel S ex (State.init sys)).2.trace → r = 0) →
      (buildAndExecuteKernel S ex (State.init sys)).1 = Outcome.ret () →
      wrapperCalls (buildAndExecuteKernel S ex (State.init sys)).2.trace =
          successCalls (selectEnv ex) ∧
        (successCalls (selectEnv ex)).length = 14 ∧
        ((successCalls (selectEnv ex)).map Call.fn).dedup.length = 9) ∧
    (∀ c ∈ wrapperCalls (buildAndExecuteKernel S ex (State.init sys)).2.trace,
      c.isKernelExecution = false) := by
  have hp := run_path S ex sys
  generalize (buildAndExecuteKernel S ex (State.init sys)).1 = o at hp
  generalize (buildAndExecuteKernel S ex (State.init sys)).2.trace = t at hp
  cases hp <;>
    simp [mallocEvents, deviceEvents, createEvents, writeEvents, programEvents, kernelEvent,
      readEvent, cleanupEvents, wrapperCalls, Event.toCall, successCalls, Call.fn,
      Call.isKernelExecution]

/-- An instance of C7 (amended): the run of `okSys`. -/
theorem wrapper_call_sequence_on_success_witness :
    wrapperCalls (buildAndExecuteKernel okSys execution_ty.ON_CPU (State.init ())).2.trace =
        successCalls env_t.first_cpu_env ∧
      (successCalls env_t.first_cpu_env).length = 14 ∧
      ((successCalls env_t.first_cpu_env).map Call.fn).dedup.length = 9 :=
  (wrapper_call_sequence_on_success okSys execution_ty.ON_CPU ()).1
    (okSys_codes_zero execution_ty.ON_CPU)
    (observe_fst _ _ _ (okSys_observe execution_ty.ON_CPU))

theorem successTrace_released (env : env_t) (res : Resource) :
    ReleasedOnceAfterUse (successTrace env) res := by
  unfold ReleasedOnceAfterUse
  cases env <;> cases res
  case first_cpu_env.buffer k => fin_cases k <;> decide
  case first_gpu_env.buffer k => fin_cases k <;> decide
  case first_cpu_env.host p => cases p <;> decide
  case first_gpu_env.host p => cases p <;> decide
  all_goals decide

/-- C6: on the path of `buildAndExecuteKernel` where every wrapper call returns 0 and
validation passes, each resource the function created (the kernel, the program, the three
buffers, the three host arrays) is released exactly once, after the last event that uses
it, the host arrays after the validation; and on every path that ends in `exit` no
destroy call and no `free` is made. -/
theorem resources_released_once_on_success_never_on_abort {σ : Type} (S : Sys σ)
    (ex : execution_ty) (sys : σ) :
    ((∀ c r, Event.call c r ∈ (buildAndExecuteKernel S ex (State.init sys)).2.trace → r = 0) →
      Event.stdout Msg.resultsMatch ∈ (buildAndExecuteKernel S ex (State.init sys)).2.trace →
      ∀ res, ReleasedOnceAfterUse (buildAndExecuteKernel S ex (State.init sys)).2.trace res) ∧
    (∀ st, (buildAndExecuteKernel S ex (State.init sys)).1 = Outcome.exit st →
      ∀ e ∈ (buildAndExecuteKernel S ex (State.init sys)).2.trace, e.isRelease = false) := by
  have hp := run_path S ex sys
  generalize (buildAndExecuteKernel S ex (State.init sys)).1 = o at hp
  generalize (buildAndExecuteKernel S ex (State.init sys)).2.trace = t at hp
  cases hp
  case success r d0 d1 d2 d3 d4 =>
    refine ⟨fun h _ res => ?_, fun st hst => by cases hst⟩
    have hr : r = 0 := h (Call.read_numba_oneapi_mem_buffer_from_device (selectEnv ex) 0 true 0
      datasize HostPtr.C) r (by simp [deviceEvents, readEvent])
    have h0 : d0 = 0 := h Call.destroy_numba_oneapi_kernel d0 (by simp [cleanupEvents])
    have h1 : d1 = 0 := h Call.destroy_numba_oneapi_program d1 (by simp [cleanupEvents])
    have h2 : d2 = 0 := h (Call.destroy_numba_oneapi_rw_mem_buffer 0) d2 (by simp [cleanupEvents])
    have h3 : d3 = 0 := h (Call.destroy_numba_oneapi_rw_mem_buffer 1) d3 (by simp [cleanupEvents])
    have h4 : d4 = 0 := h (Call.destroy_numba_oneapi_rw_mem_buffer 2) d4 (by simp [cleanupEvents])
    subst hr h0 h1 h2 h3 h4
    exact successTrace_released (selectEnv ex) res
  all_goals
    simp [mallocEvents, deviceEvents, createEvents, writeEvents, programEvents, kernelEvent,
      readEvent, cleanupEvents, Event.isRelease]

/-- An instance of C6: the run of `okSys`. -/
theorem resources_released_once_on_success_never_on_abort_witness :
    ∀ res, ReleasedOnceAfterUse
      (buildAndExecuteKernel okSys execution_ty.ON_CPU (State.init ())).2.trace res :=
  (resources_released_once_on_success_never_on_abort okSys execution_ty.ON_CPU ()).1
    (okSys_codes_zero execution_ty.ON_CPU)
    (by rw [observe_snd _ _ _ (okSys_observe execution_ty.ON_CPU)]; simp)

theorem forFrom_congr {σ : Type} (body1 body2 : Nat → Prog σ Unit) (fuel : Nat) :
    ∀ i, (∀ j, i ≤ j → j < i + fuel → body1 j = body2 j) →
      forFrom body1 i fuel = forFrom body2 i fuel := by
  induction fuel with
  | zero => intro i _; rfl
  | succ k ih =>
    intro i h
    simp only [forFrom]
    rw [h i (Nat.le_refl i) (by omega), ih (i + 1) (fun j h1 h2 => h j (by omega) (by omega))]

theorem forLoop_guard {σ : Type} (n : Nat) (body : Nat → Prog σ Unit) :
    forLoop n body = forLoop n (fun i => if i < n then body i else fault) := by
  unfold forLoop
  apply forFrom_congr
  intro j _ hj
  rw [if_pos (by omega)]

/-- C10: every array access and every transfer of `buildAndExecuteKernel` is in bounds.
`datasize` is `sizeof(float) * N = 8192` bytes; each host array is allocated with
`datasize` bytes and so holds exactly `N` floats; the two loops only use indices below
`N`, and no run ends in an access outside a host array; every buffer is created with
size `datasize`, and every write and read transfers `datasize` bytes at offset 0 between
a buffer created with exactly that size and a host array allocated with exactly that
size. -/
theorem accesses_and_transfers_in_bounds {σ : Type} (S : Sys σ) (ex : execution_ty) (sys : σ) :
    (datasize = sizeof_float * N ∧ datasize = 8192 ∧ datasize / sizeof_float = N) ∧
    (∀ (p : HostPtr) (s : State σ), (malloc S p datasize s).1 = Outcome.ret true →
      ((malloc S p datasize s).2.mem p).length = N) ∧
    ((initInput : Prog σ Unit) = forLoop N (fun i => if i < N then initBody i else fault) ∧
      (validate : Prog σ Unit) = Prog.bind
        (forLoop N (fun i => if i < N then validateBody i else fault))
        (fun _ => printf Msg.resultsMatch)) ∧
    (buildAndExecuteKernel S ex (State.init sys)).1 ≠ Outcome.fault ∧
    (∀ p n ok, Event.malloc p n ok ∈ (buildAndExecuteKernel S ex (State.init sys)).2.trace →
      n = datasize) ∧
    (∀ env n b r, Event.call (Call.create_numba_oneapi_rw_mem_buffer env n b) r ∈
        (buildAndExecuteKernel S ex (State.init sys)).2.trace → n = datasize) ∧
    (∀ env b blocking offset n p r,
      (Event.call (Call.write_numba_oneapi_mem_buffer_to_device env b blocking offset n p) r ∈
          (buildAndExecuteKernel S ex (State.init sys)).2.trace ∨
        Event.call (Call.read_numba_oneapi_mem_buffer_from_device env b blocking offset n p) r ∈
          (buildAndExecuteKernel S ex (State.init sys)).2.trace) →
      offset = 0 ∧ n = datasize ∧
      (∃ r1, Event.call (Call.create_numba_oneapi_rw_mem_buffer env (offset + n) b) r1 ∈
        (buildAndExecuteKernel S ex (State.init sys)).2.trace) ∧
      Event.malloc p (offset + n) true ∈
        (buildAndExecuteKernel S ex (State.init sys)).2.trace) := by
  refine ⟨⟨by decide, by decide, by decide⟩, ?_, ⟨forLoop_guard N initBody, ?_⟩, ?_⟩
  · intro p s h
    have hok : mallocOk S datasize s = true := by
      have := congrArg (fun o => match o with | Outcome.ret b => b | _ => false) h
      simpa [malloc, mallocOk] using this
    have := mallocState_mem_self S p datasize s hok
    rw [datasize_div] at this
    exact this
  · show Prog.bind (forLoop N validateBody) _ = _
    rw [← forLoop_guard N validateBody]
  · have hp := run_path S ex sys
    generalize (buildAndExecuteKernel S ex (State.init sys)).1 = o at hp
    generalize (buildAndExecuteKernel S ex (State.init sys)).2.trace = t at hp
    refine ⟨?_, ?_, ?_, ?_⟩
    · cases hp <;> simp
    · intro p n ok h
      cases hp <;>
        simp only [mallocEvents, deviceEvents, createEvents, writeEvents, programEvents,
          kernelEvent, readEvent, cleanupEvents, List.cons_append, List.nil_append,
          List.append_assoc, List.mem_cons, List.mem_singleton, Event.malloc.injEq, reduceCtorEq,
          false_or, or_false, List.not_mem_nil] at h
      all_goals
        casesm* _ ∨ _, _ ∧ _
      all_goals assumption
    · intro env n b r h
      cases hp <;>
        simp only [mallocEvents, deviceEvents, createEvents, writeEvents, programEvents,
          kernelEvent, readEvent, cleanupEvents, List.cons_append, List.nil_append,
          List.append_assoc, List.mem_cons, List.mem_singleton, Event.call.injEq,
          Call.create_numba_oneapi_rw_mem_buffer.injEq, reduceCtorEq, false_and,
          false_or, or_false, List.not_mem_nil] at h
      all_goals
        casesm* _ ∨ _, _ ∧ _
      all_goals assumption
    · intro env b blocking offset n p r h
      cases hp <;>
        simp only [mallocEvents, deviceEvents, createEvents, writeEvents, programEvents,
          kernelEvent, readEvent, cleanupEvents, List.cons_append, List.nil_append,
          List.append_assoc, List.mem_cons, List.mem_singleton, Event.call.injEq,
          Call.write_numba_oneapi_mem_buffer_to_device.injEq,
          Call.read_numba_oneapi_mem_buffer_from_device.injEq, reduceCtorEq, false_and,
          false_or, or_false, List.not_mem_nil, or_self] at h ⊢
      all_goals
        casesm* _ ∨ _, _ ∧ _
      all_goals
        subst_vars
        simp

theorem ne_false_iff_eq (x y : F32) : F32.ne x y = false ↔ F32.eq x y = true := by
  unfold F32.ne
  cases F32.eq x y <;> simp

theorem elem_eq_getD {σ : Type} (s : State σ) (p : HostPtr) (i : Nat) :
    s.elem p i = (s.mem p).getD i F32.nan := rfl

theorem N_pos : 0 < N := by decide

/-- C3: the validation compares `C` with `A`.  From any state with `N` floats in `C` and
in `A`, validation followed by cleanup returns normally if and only if `C[i] == A[i]`
for every `i < N`; in that case it prints "Results Match" and goes on with the cleanup.
If `i < N` is the least index with `C[i] != A[i]`, it prints that position and the stop
message and exits with status 1, with no cleanup; this needs the arrays to reach only up
to index `i`, so no later index is read. -/
theorem validation_compares_C_with_A {σ : Type} (S : Sys σ) (s : State σ) :
    ((s.mem HostPtr.C).length = N → (s.mem HostPtr.A).length = N →
      ((Prog.bind validate (fun _ => cleanup S) s).1 = Outcome.ret () ↔
        ∀ i, i < N → F32.eq (s.elem HostPtr.C i) (s.elem HostPtr.A i) = true)) ∧
    ((s.mem HostPtr.C).length = N → (s.mem HostPtr.A).length = N →
      (∀ i, i < N → F32.eq (s.elem HostPtr.C i) (s.elem HostPtr.A i) = true) →
      Prog.bind validate (fun _ => cleanup S) s =
        cleanup S (s.log (Event.stdout Msg.resultsMatch))) ∧
    (∀ i, i < N → i < (s.mem HostPtr.C).length → i < (s.mem HostPtr.A).length →
      F32.ne (s.elem HostPtr.C i) (s.elem HostPtr.A i) = true →
      (∀ j, j < i → F32.eq (s.elem HostPtr.C j) (s.elem HostPtr.A j) = true) →
      Prog.bind validate (fun _ => cleanup S) s =
        (Outcome.exit 1, (s.log (Event.stdout (Msg.positionWrong i))).log
          (Event.stdout Msg.stopValidating))) := by
  have pass : (s.mem HostPtr.C).length = N → (s.mem HostPtr.A).length = N →
      (∀ i, i < N → F32.eq (s.elem HostPtr.C i) (s.elem HostPtr.A i) = true) →
      Prog.bind validate (fun _ => cleanup S) s =
        cleanup S (s.log (Event.stdout Msg.resultsMatch)) := by
    intro hC hA h
    have hfm : firstMismatch (s.mem HostPtr.C) (s.mem HostPtr.A) 0 N = none := by
      rw [firstMismatch_none]
      intro j _ hj
      rw [ne_false_iff_eq]
      exact h j (by omega)
    rw [Prog.bind_ret _ _ _ _ _ (validate_pass s (by omega) (by omega) hfm)]
  have fail : ∀ i, i < N → i < (s.mem HostPtr.C).length → i < (s.mem HostPtr.A).length →
      F32.ne (s.elem HostPtr.C i) (s.elem HostPtr.A i) = true →
      (∀ j, j < i → F32.eq (s.elem HostPtr.C j) (s.elem HostPtr.A j) = true) →
      Prog.bind validate (fun _ => cleanup S) s =
        (Outcome.exit 1, (s.log (Event.stdout (Msg.positionWrong i))).log
          (Event.stdout Msg.stopValidating)) := by
    intro i hi hiC hiA hne hlt
    have hfm : firstMismatch (s.mem HostPtr.C) (s.mem HostPtr.A) 0 N = some i := by
      rw [firstMismatch_some]
      refine ⟨Nat.zero_le i, by omega, hne, ?_⟩
      intro k _ hk
      rw [ne_false_iff_eq]
      exact hlt k hk
    rw [Prog.bind_exit_of _ _ _ _ _ (validate_fail s i hiC hiA hfm)]
  refine ⟨?_, pass, fail⟩
  intro hC hA
  constructor
  · intro hret
    by_contra hex
    push_neg at hex
    have hex2 : ∃ i, i < N ∧ F32.ne (s.elem HostPtr.C i) (s.elem HostPtr.A i) = true := by
      obtain ⟨i, hi, hne⟩ := hex
      refine ⟨i, hi, ?_⟩
      cases h : F32.ne (s.elem HostPtr.C i) (s.elem HostPtr.A i)
      · exact absurd ((ne_false_iff_eq _ _).mp h) hne
      · rfl
    have hmin := Nat.find_spec hex2
    have hlt : ∀ j, j < Nat.find hex2 →
        F32.eq (s.elem HostPtr.C j) (s.elem HostPtr.A j) = true := by
      intro j hj
      have := Nat.find_min hex2 hj
      rw [← ne_false_iff_eq]
      cases h : F32.ne (s.elem HostPtr.C j) (s.elem HostPtr.A j)
      · rfl
      · exact absurd ⟨by omega, h⟩ this
    rw [fail (Nat.find hex2) hmin.1 (by omega) (by omega) hmin.2 hlt] at hret
    cases hret
  · intro h
    rw [pass hC hA h]
    obtain ⟨s1, hc, _⟩ := cleanup_eq S (s.log (Event.stdout Msg.resultsMatch))
    rw [hc]

theorem matchingState_mem (p : HostPtr) : matchingState.mem p = initA := by
  simp only [matchingState]

theorem shortState_mem_C : shortState.mem HostPtr.C = [F32.nan] := by
  unfold shortState
  rfl

theorem shortState_mem_A : shortState.mem HostPtr.A = initA := by
  simp only [shortState]

/-- An instance of C3: validation passes in `matchingState`, and in `shortState` it stops at
index 0 although `C` has no second element. -/
theorem validation_compares_C_with_A_witness :
    Prog.bind validate (fun _ => cleanup okSys) matchingState =
        cleanup okSys (matchingState.log (Event.stdout Msg.resultsMatch)) ∧
      Prog.bind validate (fun _ => cleanup okSys) shortState =
        (Outcome.exit 1, (shortState.log (Event.stdout (Msg.positionWrong 0))).log
          (Event.stdout Msg.stopValidating)) :=
  ⟨(validation_compares_C_with_A okSys matchingState).2.1
      (by rw [matchingState_mem]; exact initA_length)
      (by rw [matchingState_mem]; exact initA_length)
      (fun i hi => by
        rw [elem_eq_getD, elem_eq_getD, matchingState_mem, matchingState_mem, initA_getD i hi]
        exact F32.eq_fin_self _),
    (validation_compares_C_with_A okSys shortState).2.2 0 N_pos
      (by rw [shortState_mem_C]; exact Nat.zero_lt_one)
      (by rw [shortState_mem_A, initA_length]; exact N_pos)
      (by rw [elem_eq_getD, shortState_mem_C]; exact F32.ne_nan_left _)
      (fun j hj => absurd hj (Nat.not_lt_zero j))⟩

theorem toInt32_small (g : Nat) (h : g < 2147483648) : toInt32 g = (g : Int) := by
  unfold toInt32
  omega

theorem vecadd_eq (g : Nat) (m : KernelArgs) (a b : F32) (hg : g < 2147483648)
    (hA : m.A[g]? = some a) (hB : m.B[g]? = some b) (hC : g < m.C.length) :
    vecadd g m = some { A := m.A, B := m.B, C := m.C.set g (F32.add a b) } := by
  unfold vecadd
  simp only [toInt32_small g hg]
  have h0 : ¬ ((g : Int) < 0) := by omega
  simp [h0, hA, hB, hC]

theorem initA_getElem? (j : Nat) (hj : j < N) : initA[j]? = some (F32.fin false (j + 1) 0) := by
  have h := initA_getD j hj
  rw [List.getD_eq_getElem?_getD] at h
  have hlt : j < initA.length := by rw [initA_length]; exact hj
  rw [List.getElem?_eq_getElem hlt] at h ⊢
  simpa using h

theorem initB_getElem? (j : Nat) (hj : j < N) :
    initB[j]? = some (F32.fin false (2 * (j + 1)) 0) := by
  have h := initB_getD j hj
  rw [List.getD_eq_getElem?_getD] at h
  have hlt : j < initB.length := by rw [initB_length]; exact hj
  rw [List.getElem?_eq_getElem hlt] at h ⊢
  simpa using h

theorem runKernel_sum (A B : List F32)
    (hA : ∀ i, i < N → A[i]? = some (F32.fin false (i + 1) 0))
    (hB : ∀ i, i < N → B[i]? = some (F32.fin false (2 * (i + 1)) 0))
    (order : List Nat) : ∀ (C0 : List F32),
    (∀ g ∈ order, g < N) → C0.length = N →
    ∃ m1, runKernel order (KernelArgs.mk A B C0) = some m1 ∧ m1.A = A ∧
      m1.B = B ∧ m1.C.length = N ∧
      ∀ i, i < N → m1.C[i]? =
        if i ∈ order then some (F32.fin false (3 * (i + 1)) 0) else C0[i]? := by
  induction order with
  | nil =>
    intro C0 _ hC
    exact ⟨KernelArgs.mk A B C0, rfl, rfl, rfl, hC, fun i _ => by simp⟩
  | cons g rest ih =>
    intro C0 hord hC
    have hg : g < N := hord g (List.mem_cons_self g rest)
    have hgN : g < 2048 := hg
    have hstep : vecadd g (KernelArgs.mk A B C0) =
        some (KernelArgs.mk A B (C0.set g (F32.fin false (3 * (g + 1)) 0))) := by
      rw [vecadd_eq g (KernelArgs.mk A B C0) (F32.fin false (g + 1) 0)
        (F32.fin false (2 * (g + 1)) 0) (by omega)
        (hA g hg) (hB g hg) (by simp only; omega)]
      rw [F32.add_exact (g + 1) (2 * (g + 1)) (by omega)]
      have e : g + 1 + 2 * (g + 1) = 3 * (g + 1) := by omega
      rw [e]
    obtain ⟨m1, h1, h1A, h1B, h1C, h1i⟩ := ih (C0.set g (F32.fin false (3 * (g + 1)) 0))
      (fun x hx => hord x (List.mem_cons_of_mem g hx)) (by rw [List.length_set]; exact hC)
    refine ⟨m1, ?_, h1A, h1B, h1C, ?_⟩
    · rw [runKernel, hstep]
      exact h1
    · intro i hi
      rw [h1i i hi]
      by_cases hir : i ∈ rest
      · simp [hir]
      · simp only [hir, if_false, List.mem_cons, or_false]
        by_cases hig : i = g
        · subst hig
          simp [hC, hi]
        · simp [hig, List.getElem?_set_ne (Ne.symm hig)]

/-- C4: the kernel `vecadd` computes an element-wise sum.  Executed at an index `idx`
inside the buffers, its body sets `C[idx] = A[idx] + B[idx]` and leaves `A`, `B` and every
other element of `C` as they were.  Run over any schedule of the work-items `idx < N` on
the inputs that the initialisation loop of `buildAndExecuteKernel` stores (`A[i] = i+1`,
`B[i] = 2*(i+1)`), it gives `C[i] = 3*(i+1)` for every `i < N`; all these values are
integers below `2^24`, which `float` holds exactly. -/
theorem vecadd_is_elementwise_sum :
    (∀ (idx : Nat) (m : KernelArgs) (a b : F32), idx < 2147483648 → m.A[idx]? = some a →
      m.B[idx]? = some b → idx < m.C.length →
      ∃ m1, vecadd idx m = some m1 ∧ m1.A = m.A ∧ m1.B = m.B ∧
        m1.C[idx]? = some (F32.add a b) ∧ m1.C.length = m.C.length ∧
        ∀ j, j ≠ idx → m1.C[j]? = m.C[j]?) ∧
    (∀ {σ : Type} (s : State σ) (order : List Nat) (C0 : List F32),
      (s.mem HostPtr.A).length = N → (s.mem HostPtr.B).length = N → C0.length = N →
      (∀ g ∈ order, g < N) → (∀ i, i < N → i ∈ order) →
      ∃ m1, runKernel order
          { A := (initInput s).2.mem HostPtr.A, B := (initInput s).2.mem HostPtr.B, C := C0 } =
          some m1 ∧
        m1.A = (initInput s).2.mem HostPtr.A ∧ m1.B = (initInput s).2.mem HostPtr.B ∧
        ∀ i, i < N →
          m1.A[i]? = some (F32.ofNat (i + 1)) ∧ m1.B[i]? = some (F32.ofNat (2 * (i + 1))) ∧
          m1.C[i]? = some (F32.ofNat (3 * (i + 1))) ∧
          F32.ofNat (3 * (i + 1)) = F32.fin false (3 * (i + 1)) 0 ∧
          F32.ofNat (3 * (i + 1)) = F32.add (F32.ofNat (i + 1)) (F32.ofNat (2 * (i + 1))) ∧
          3 * (i + 1) < 2 ^ 24) := by
  constructor
  · intro idx m a b hidx hA hB hC
    refine ⟨_, vecadd_eq idx m a b hidx hA hB hC, rfl, rfl, ?_, ?_, ?_⟩
    · simp [hC]
    · simp
    · intro j hj
      simp [List.getElem?_set_ne (Ne.symm hj)]
  · intro σ s order C0 hA hB hC0 hord hall
    have hinit := initInput_eq s hA hB
    have hmA : (initInput s).2.mem HostPtr.A = initA := by
      rw [hinit]
      simp [Function.update]
    have hmB : (initInput s).2.mem HostPtr.B = initB := by
      rw [hinit]
      simp [Function.update]
    rw [hmA, hmB]
    obtain ⟨m1, h1, h1A, h1B, _, h1i⟩ :=
      runKernel_sum initA initB initA_getElem? initB_getElem? order C0 hord hC0
    refine ⟨m1, h1, h1A, h1B, ?_⟩
    intro i hi
    have hiN : i < 2048 := hi
    have e1 := F32.ofNat_exact (i + 1) (by omega)
    have e2 := F32.ofNat_exact (2 * (i + 1)) (by omega)
    have e3 := F32.ofNat_exact (3 * (i + 1)) (by omega)
    refine ⟨?_, ?_, ?_, e3, ?_, by omega⟩
    · rw [h1A, e1]; exact initA_getElem? i hi
    · rw [h1B, e2]; exact initB_getElem? i hi
    · rw [h1i i hi, e3]
      simp [hall i hi]
    · rw [e1, e2, e3, F32.add_exact (i + 1) (2 * (i + 1)) (by omega)]
      congr 1
      omega

/-- An instance of C4: the kernel run in index order on the arrays initialised from
`matchingState`. -/
theorem vecadd_is_elementwise_sum_witness :
    ∃ m1, runKernel (List.range N)
        { A := (initInput matchingState).2.mem HostPtr.A,
          B := (initInput matchingState).2.mem HostPtr.B, C := initA } = some m1 ∧
      m1.A = (initInput matchingState).2.mem HostPtr.A ∧
      m1.B = (initInput matchingState).2.mem HostPtr.B ∧
      ∀ i, i < N →
        m1.A[i]? = some (F32.ofNat (i + 1)) ∧ m1.B[i]? = some (F32.ofNat (2 * (i + 1))) ∧
        m1.C[i]? = some (F32.ofNat (3 * (i + 1))) ∧
        F32.ofNat (3 * (i + 1)) = F32.fin false (3 * (i + 1)) 0 ∧
        F32.ofNat (3 * (i + 1)) = F32.add (F32.ofNat (i + 1)) (F32.ofNat (2 * (i + 1))) ∧
        3 * (i + 1) < 2 ^ 24 :=
  vecadd_is_elementwise_sum.2 matchingState (List.range N) initA
    (by rw [matchingState_mem]; exact initA_length)
    (by rw [matchingState_mem]; exact initA_length)
    initA_length
    (fun g hg => List.mem_range.mp hg)
    (fun i hi => List.mem_range.mpr hi)

theorem bind_outcome {σ α β : Type} (m : Prog σ α) (f : α → Prog σ β) (s : State σ) :
    (∃ a s1, m s = (Outcome.ret a, s1) ∧ Prog.bind m f s = f a s1) ∨
    (∃ n s1, m s = (Outcome.exit n, s1) ∧ Prog.bind m f s = (Outcome.exit n, s1)) ∨
    (∃ s1, m s = (Outcome.fault, s1) ∧ Prog.bind m f s = (Outcome.fault, s1)) := by
  rcases h : m s with ⟨o, s1⟩
  cases o with
  | ret a => exact Or.inl ⟨a, s1, rfl, by simp [Prog.bind, h]⟩
  | exit n => exact Or.inr (Or.inl ⟨n, s1, rfl, by simp [Prog.bind, h]⟩)
  | fault => exact Or.inr (Or.inr ⟨s1, rfl, by simp [Prog.bind, h]⟩)

theorem callRet_faithful (f : Int) (a : Option (Nat → F32)) (fresh : Fin 3 → Nat → F32)
    (K : Device → Device) (code : Call → Int) (c : Call) (s : State Device) :
    callRet (faithfulSys f a fresh K code) c s = code c := by
  cases c <;> rfl

theorem mallocOk_faithful (f : Int) (g : Nat → F32) (fresh : Fin 3 → Nat → F32)
    (K : Device → Device) (code : Call → Int) (n : Nat) (s : State Device) :
    mallocOk (faithfulSys f (some g) fresh K code) n s = true := rfl

theorem overlay_full (old data : List F32) (h1 : old.length = N) (h2 : data.length = N) :
    old.take (0 / sizeof_float) ++ data.take (datasize / sizeof_float) ++
      old.drop (0 / sizeof_float + datasize / sizeof_float) = data := by
  rw [datasize_div, Nat.zero_div, Nat.zero_add, List.take_zero, List.nil_append,
    List.take_of_length_le (by omega), List.drop_eq_nil_of_le (by omega), List.append_nil]

theorem read_full (l : List F32) (h : l.length = N) :
    (l.drop (0 / sizeof_float)).take (datasize / sizeof_float) = l := by
  rw [datasize_div, Nat.zero_div, List.drop_zero, List.take_of_length_le (by omega)]

theorem faithful_read_back (f : Int) (a : Option (Nat → F32)) (fresh : Fin 3 → Nat → F32)
    (K : Device → Device) (code : Call → Int) (env : env_t) (s : State Device)
    (hA : s.mem HostPtr.A = initA) (hC : (s.mem HostPtr.C).length = N) :
    (callState (faithfulSys f a fresh K code)
      (Call.read_numba_oneapi_mem_buffer_from_device env 0 true 0 datasize HostPtr.C)
      (callState (faithfulSys f a fresh K code)
        (Call.create_numba_oneapi_kernel env KernelName.vecadd)
        (callState (faithfulSys f a fresh K code) (Call.build_numba_oneapi_program env)
          (callState (faithfulSys f a fresh K code)
            (Call.create_numba_oneapi_program_from_source env 1 Source.programSource)
            (callState (faithfulSys f a fresh K code)
              (Call.write_numba_oneapi_mem_buffer_to_device env 1 true 0 datasize HostPtr.B)
              (callState (faithfulSys f a fresh K code)
                (Call.write_numba_oneapi_mem_buffer_to_device env 0 true 0 datasize HostPtr.A)
                (callState (faithfulSys f a fresh K code)
                  (Call.create_numba_oneapi_rw_mem_buffer env datasize 2)
                  (callState (faithfulSys f a fresh K code)
                    (Call.create_numba_oneapi_rw_mem_buffer env datasize 1)
                    (callState (faithfulSys f a fresh K code)
                      (Call.create_numba_oneapi_rw_mem_buffer env datasize 0)
                      s))))))))).mem HostPtr.C = initA := by
  rw [callState_read_mem_C]
  simp only [callState_mem_of_not_read, Call.readSize, Function.update, dite_true, ite_true,
    eq_rec_constant]
  simp only [callState, faithfulSys, Device.call, hostData, Call.hostArg, Call.readSize]
  simp only [Function.update, dite_true, ite_true, eq_rec_constant, hA, Fin.isValue,
    Fin.reduceEq, dite_false]
  rw [overlay_full _ initA (by rw [List.length_map, List.length_range, datasize_div])
    initA_length, read_full _ initA_length, hostOverwrite_full _ _ initA_length hC]

theorem faithful_tail (f : Int) (a : Option (Nat → F32)) (fresh : Fin 3 → Nat → F32)
    (K : Device → Device) (code : Call → Int) (env : env_t) (s : State Device)
    (hA : s.mem HostPtr.A = initA) (hC : (s.mem HostPtr.C).length = N)
    (h1 : code (Call.create_numba_oneapi_rw_mem_buffer env datasize 0) = 0 ∧
      code (Call.create_numba_oneapi_rw_mem_buffer env datasize 1) = 0 ∧
      code (Call.create_numba_oneapi_rw_mem_buffer env datasize 2) = 0)
    (h2 : code (Call.write_numba_oneapi_mem_buffer_to_device env 0 true 0 datasize HostPtr.A) = 0 ∧
      code (Call.write_numba_oneapi_mem_buffer_to_device env 1 true 0 datasize HostPtr.B) = 0)
    (h3 : code (Call.create_numba_oneapi_program_from_source env 1 Source.programSource) = 0 ∧
      code (Call.build_numba_oneapi_program env) = 0)
    (h4 : code (Call.create_numba_oneapi_kernel env KernelName.vecadd) = 0) :
    (deviceSteps (faithfulSys f a fresh K code) env s).1 = Outcome.ret () ∧
    (deviceSteps (faithfulSys f a fresh K code) env s).2.mem HostPtr.C = initA ∧
    (deviceSteps (faithfulSys f a fresh K code) env s).2.mem HostPtr.A = initA ∧
    observe (Prog.bind (deviceSteps (faithfulSys f a fresh K code) env)
        (fun _ => Prog.bind validate (fun _ => cleanup (faithfulSys f a fresh K code))) s) =
      (Outcome.ret (), s.trace ++ (deviceEvents env
        (code (Call.read_numba_oneapi_mem_buffer_from_device env 0 true 0 datasize HostPtr.C)) ++
        [Event.stdout Msg.resultsMatch] ++
        cleanupEvents (code Call.destroy_numba_oneapi_kernel)
          (code Call.destroy_numba_oneapi_program)
          (code (Call.destroy_numba_oneapi_rw_mem_buffer 0))
          (code (Call.destroy_numba_oneapi_rw_mem_buffer 1))
          (code (Call.destroy_numba_oneapi_rw_mem_buffer 2)))) := by
  have hd := deviceSteps_eq (faithfulSys f a fresh K code) env s
  simp only [callRet_faithful, h1, h2, h3, h4, and_self, not_true_eq_false, if_false] at hd
  have hC9 := faithful_read_back f a fresh K code env s hA hC
  have hd1 : deviceSteps (faithfulSys f a fresh K code) env s =
      (Outcome.ret (), (deviceSteps (faithfulSys f a fresh K code) env s).2) := by
    rw [hd]
  have hmC : (deviceSteps (faithfulSys f a fresh K code) env s).2.mem HostPtr.C = initA := by
    rw [hd]
    exact hC9
  have hmA : (deviceSteps (faithfulSys f a fresh K code) env s).2.mem HostPtr.A = initA := by
    rw [hd]
    simp only [callState_read_mem_C]
    simp [callState_mem_of_not_read, Call.readSize, Function.update, hA]
  have ht : (deviceSteps (faithfulSys f a fresh K code) env s).2.trace =
      s.trace ++ deviceEvents env
        (code (Call.read_numba_oneapi_mem_buffer_from_device env 0 true 0 datasize HostPtr.C)) := by
    rw [hd]
    simp [callRet_faithful, h1, h2, h3, h4, deviceEvents, createEvents, writeEvents,
      programEvents, kernelEvent, readEvent]
  refine ⟨by rw [hd], hmC, hmA, ?_⟩
  rw [Prog.bind_ret _ _ _ _ _ hd1]
  rw [Prog.bind_ret _ _ _ _ _ (validate_pass _ (by rw [hmC, initA_length])
    (by rw [hmA, initA_length]) (by rw [hmC, hmA]; exact firstMismatch_initA))]
  simp only [observe, cleanup, bind_eq, Prog.bind_callWrapper, Prog.bind_free, free_trace,
    callState_trace, log_trace, callRet_faithful, ht]
  simp [cleanupEvents]
  rfl

theorem faithful_codes_zero (f : Int) (g : Nat → F32) (fresh : Fin 3 → Nat → F32)
    (K : Device → Device) (code : Call → Int) (ex : execution_ty) (d0 : Device)
    (hz : ∀ c r, Event.call c r ∈ (buildAndExecuteKernel (faithfulSys f (some g) fresh K code) ex
      (State.init d0)).2.trace → r = 0) :
    (code (Call.create_numba_oneapi_rw_mem_buffer (selectEnv ex) datasize 0) = 0 ∧
      code (Call.create_numba_oneapi_rw_mem_buffer (selectEnv ex) datasize 1) = 0 ∧
      code (Call.create_numba_oneapi_rw_mem_buffer (selectEnv ex) datasize 2) = 0) ∧
    (code (Call.write_numba_oneapi_mem_buffer_to_device (selectEnv ex) 0 true 0 datasize
        HostPtr.A) = 0 ∧
      code (Call.write_numba_oneapi_mem_buffer_to_device (selectEnv ex) 1 true 0 datasize
        HostPtr.B) = 0) ∧
    (code (Call.create_numba_oneapi_program_from_source (selectEnv ex) 1 Source.programSource) = 0 ∧
      code (Call.build_numba_oneapi_program (selectEnv ex)) = 0) ∧
    code (Call.create_numba_oneapi_kernel (selectEnv ex) KernelName.vecadd) = 0 := by
  obtain ⟨heq, -, -, -, -⟩ := buildAndExecuteKernel_eq (faithfulSys f (some g) fresh K code)
    ex (State.init d0) (mallocOk_faithful _ _ _ _ _ _ _) (mallocOk_faithful _ _ _ _ _ _ _)
    (mallocOk_faithful _ _ _ _ _ _ _)
  rw [heq] at hz
  have hd := deviceSteps_eq (faithfulSys f (some g) fresh K code) (selectEnv ex)
    (inputState (faithfulSys f (some g) fresh K code) (State.init d0))
  simp only [callRet_faithful] at hd
  by_cases h1 : code (Call.create_numba_oneapi_rw_mem_buffer (selectEnv ex) datasize 0) = 0 ∧
      code (Call.create_numba_oneapi_rw_mem_buffer (selectEnv ex) datasize 1) = 0 ∧
      code (Call.create_numba_oneapi_rw_mem_buffer (selectEnv ex) datasize 2) = 0
  swap
  · exfalso
    rw [if_pos h1] at hd
    rw [Prog.bind_exit_of _ _ _ _ _ hd] at hz
    apply h1
    refine ⟨hz (Call.create_numba_oneapi_rw_mem_buffer (selectEnv ex) datasize 0) _ ?_,
      hz (Call.create_numba_oneapi_rw_mem_buffer (selectEnv ex) datasize 1) _ ?_,
      hz (Call.create_numba_oneapi_rw_mem_buffer (selectEnv ex) datasize 2) _ ?_⟩ <;>
      simp [callRet_faithful]
  rw [if_neg (not_not.mpr h1)] at hd
  by_cases h2 : code (Call.write_numba_oneapi_mem_buffer_to_device (selectEnv ex) 0 true 0
        datasize HostPtr.A) = 0 ∧
      code (Call.write_numba_oneapi_mem_buffer_to_device (selectEnv ex) 1 true 0 datasize
        HostPtr.B) = 0
  swap
  · exfalso
    rw [if_pos h2] at hd
    rw [Prog.bind_exit_of _ _ _ _ _ hd] at hz
    apply h2
    refine ⟨hz (Call.write_numba_oneapi_mem_buffer_to_device (selectEnv ex) 0 true 0 datasize
        HostPtr.A) _ ?_,
      hz (Call.write_numba_oneapi_mem_buffer_to_device (selectEnv ex) 1 true 0 datasize
        HostPtr.B) _ ?_⟩ <;>
      simp [callRet_faithful]
  rw [if_neg (not_not.mpr h2)] at hd
  by_cases h3 : code (Call.create_numba_oneapi_program_from_source (selectEnv ex) 1
        Source.programSource) = 0 ∧
      code (Call.build_numba_oneapi_program (selectEnv ex)) = 0
  swap
  · exfalso
    rw [if_pos h3] at hd
    rw [Prog.bind_exit_of _ _ _ _ _ hd] at hz
    apply h3
    refine ⟨hz (Call.create_numba_oneapi_program_from_source (selectEnv ex) 1
        Source.programSource) _ ?_,
      hz (Call.build_numba_oneapi_program (selectEnv ex)) _ ?_⟩ <;>
      simp [callRet_faithful]
  rw [if_neg (not_not.mpr h3)] at hd
  by_cases h4 : code (Call.create_numba_oneapi_kernel (selectEnv ex) KernelName.vecadd) = 0
  swap
  · exfalso
    rw [if_pos h4] at hd
    rw [Prog.bind_exit_of _ _ _ _ _ hd] at hz
    apply h4
    refine hz (Call.create_numba_oneapi_kernel (selectEnv ex) KernelName.vecadd) _ ?_
    simp [callRet_faithful]
  exact ⟨h1, h2, h3, h4⟩

/-- C8 does not hold as stated: with a faithful device on which every wrapper call returns 0,
`buildAndExecuteKernel` still exits with status 1, without reaching the validation, when
`malloc` returns `NULL`. -/
theorem faithful_device_run_stops_without_memory :
    (∀ c r, Event.call c r ∈ (buildAndExecuteKernel faithfulNoMemSys execution_ty.ON_CPU
        (State.init emptyDevice)).2.trace → r = 0) ∧
    (buildAndExecuteKernel faithfulNoMemSys execution_ty.ON_CPU
        (State.init emptyDevice)).1 = Outcome.exit 1 ∧
    (buildAndExecuteKernel faithfulNoMemSys execution_ty.ON_CPU
        (State.init emptyDevice)).2.trace = [Event.malloc HostPtr.A datasize false, Event.perror] ∧
    Event.stdout Msg.resultsMatch ∉ (buildAndExecuteKernel faithfulNoMemSys execution_ty.ON_CPU
        (State.init emptyDevice)).2.trace := by
  have h : observe (buildAndExecuteKernel faithfulNoMemSys execution_ty.ON_CPU
      (State.init emptyDevice)) =
      (Outcome.exit 1, [Event.malloc HostPtr.A datasize false, Event.perror]) := by
    simp [observe, buildAndExecuteKernel, bind_eq, pure_eq, Prog.bind_malloc, Prog.ite_apply,
      perror, Prog.bind_emit, Prog.bind_exit, mallocOk, faithfulNoMemSys, faithfulSys, State.init]
  rw [observe_fst _ _ _ h, observe_snd _ _ _ h]
  simp

/-- C8 (amended): assume a faithful device, wrapper calls that all return 0, and host
allocations that succeed.  Then `buildAndExecuteKernel` passes validation: after the read
`C[i] = A[i] = i+1` for every `i < N`, "Results Match" is printed and the function returns
normally.  From the end of the initialisation loop on the result is the same for every
content of `B`, every content of the device buffers (before and at creation) and every
kernel: the run returns normally with the same events. -/
theorem faithful_device_passes_validation (f : Int) (g : Nat → F32) (fresh : Fin 3 → Nat → F32)
    (K : Device → Device) (code : Call → Int) (ex : execution_ty) (d0 : Device) :
    ((∀ c r, Event.call c r ∈ (buildAndExecuteKernel (faithfulSys f (some g) fresh K code) ex
        (State.init d0)).2.trace → r = 0) →
      (buildAndExecuteKernel (faithfulSys f (some g) fresh K code) ex (State.init d0)).1 =
        Outcome.ret () ∧
      Event.stdout Msg.resultsMatch ∈
        (buildAndExecuteKernel (faithfulSys f (some g) fresh K code) ex (State.init d0)).2.trace ∧
      ∀ i, i < N →
        (deviceSteps (faithfulSys f (some g) fresh K code) (selectEnv ex)
          (inputState (faithfulSys f (some g) fresh K code) (State.init d0))).2.elem HostPtr.C i =
          F32.ofNat (i + 1) ∧
        (deviceSteps (faithfulSys f (some g) fresh K code) (selectEnv ex)
          (inputState (faithfulSys f (some g) fresh K code) (State.init d0))).2.elem HostPtr.A i =
          F32.ofNat (i + 1) ∧
        F32.eq (F32.ofNat (i + 1)) (F32.ofNat (i + 1)) = true) ∧
    (∀ (s : State Device), s.mem HostPtr.A = initA → (s.mem HostPtr.C).length = N →
      (∀ c, code c = 0) →
      observe (Prog.bind (deviceSteps (faithfulSys f (some g) fresh K code) (selectEnv ex))
          (fun _ => Prog.bind validate
            (fun _ => cleanup (faithfulSys f (some g) fresh K code))) s) =
        (Outcome.ret (), s.trace ++ (deviceEvents (selectEnv ex) 0 ++
          [Event.stdout Msg.resultsMatch] ++ cleanupEvents 0 0 0 0 0))) := by
  constructor
  · intro hz
    obtain ⟨h1, h2, h3, h4⟩ := faithful_codes_zero f g fresh K code ex d0 hz
    obtain ⟨heq, hmA, -, hmC, htr⟩ := buildAndExecuteKernel_eq
      (faithfulSys f (some g) fresh K code) ex (State.init d0) (mallocOk_faithful _ _ _ _ _ _ _)
      (mallocOk_faithful _ _ _ _ _ _ _) (mallocOk_faithful _ _ _ _ _ _ _)
    obtain ⟨-, hC9, hA9, hobs⟩ := faithful_tail f (some g) fresh K code (selectEnv ex)
      (inputState (faithfulSys f (some g) fresh K code) (State.init d0)) hmA hmC h1 h2 h3 h4
    rw [heq, observe_fst _ _ _ hobs, observe_snd _ _ _ hobs]
    refine ⟨rfl, by simp, ?_⟩
    intro i hi
    have hiN : i < 2048 := hi
    rw [elem_eq_getD, elem_eq_getD, hC9, hA9, initA_getD i hi, F32.ofNat_exact (i + 1) (by omega)]
    exact ⟨rfl, rfl, F32.eq_fin_self _⟩
  · intro s hA hC hcode
    obtain ⟨-, -, -, hobs⟩ := faithful_tail f (some g) fresh K code (selectEnv ex) s hA hC
      ⟨hcode _, hcode _, hcode _⟩ ⟨hcode _, hcode _⟩ ⟨hcode _, hcode _⟩ (hcode _)
    rw [hobs]
    simp only [hcode]

theorem faithful_zero_codes_trace (ex : execution_ty) :
    ∀ c r, Event.call c r ∈ (buildAndExecuteKernel
      (faithfulSys (-1) (some (fun _ => F32.nan)) (fun _ _ => F32.nan) id (fun _ => 0)) ex
      (State.init emptyDevice)).2.trace → r = 0 := by
  obtain ⟨heq, hmA, -, hmC, htr⟩ := buildAndExecuteKernel_eq
    (faithfulSys (-1) (some (fun _ => F32.nan)) (fun _ _ => F32.nan) id (fun _ => 0)) ex
    (State.init emptyDevice) (mallocOk_faithful _ _ _ _ _ _ _)
    (mallocOk_faithful _ _ _ _ _ _ _) (mallocOk_faithful _ _ _ _ _ _ _)
  obtain ⟨-, -, -, hobs⟩ := faithful_tail (-1) (some (fun _ => F32.nan)) (fun _ _ => F32.nan) id
    (fun _ => 0) (selectEnv ex)
    (inputState (faithfulSys (-1) (some (fun _ => F32.nan)) (fun _ _ => F32.nan) id
      (fun _ => 0)) (State.init emptyDevice)) hmA hmC ⟨rfl, rfl, rfl⟩ ⟨rfl, rfl⟩ ⟨rfl, rfl⟩ rfl
  rw [heq, observe_snd _ _ _ hobs, htr]
  simp [State.init, mallocEvents, deviceEvents, createEvents, writeEvents, programEvents,
    kernelEvent, readEvent, cleanupEvents, or_imp, forall_and]

/-- An instance of C8 (amended): the run from an empty device of the faithful environment in
which every call returns 0, `malloc` succeeds, fresh memory holds NaN and the kernel would
do nothing. -/
theorem faithful_device_passes_validation_witness :
    (buildAndExecuteKernel
        (faithfulSys (-1) (some (fun _ => F32.nan)) (fun _ _ => F32.nan) id (fun _ => 0))
        execution_ty.ON_CPU (State.init emptyDevice)).1 = Outcome.ret () ∧
      Event.stdout Msg.resultsMatch ∈
        (buildAndExecuteKernel
          (faithfulSys (-1) (some (fun _ => F32.nan)) (fun _ _ => F32.nan) id (fun _ => 0))
          execution_ty.ON_CPU (State.init emptyDevice)).2.trace :=
  ⟨((faithful_device_passes_validation (-1) (fun _ => F32.nan) (fun _ _ => F32.nan) id
      (fun _ => 0) execution_ty.ON_CPU emptyDevice).1
      (faithful_zero_codes_trace execution_ty.ON_CPU)).1,
    ((faithful_device_passes_validation (-1) (fun _ => F32.nan) (fun _ _ => F32.nan) id
      (fun _ => 0) execution_ty.ON_CPU emptyDevice).1
      (faithful_zero_codes_trace execution_ty.ON_CPU)).2.1⟩

theorem Prog.bind_readRt {σ β : Type} (S : Sys σ) (f : Option Runtime → Prog σ β) (s : State σ) :
    Prog.bind (readRt S) f s = f (S.rt s.sys) s := rfl
theorem Prog.bind_deref_some {σ α β : Type} (a : α) (f : α → Prog σ β) (s : State σ) :
    Prog.bind (deref (some a)) f s = f a s := rfl
theorem Prog.bind_deref_none {σ α β : Type} (f : α → Prog σ β) (s : State σ) :
    Prog.bind (deref none) f s = (Outcome.fault, s) := rfl
theorem Prog.bind_callable_true {σ β : Type} (f : Unit → Prog σ β) (s : State σ) :
    Prog.bind (callable true) f s = f () s := rfl
theorem Prog.bind_callable_false {σ β : Type} (f : Unit → Prog σ β) (s : State σ) :
    Prog.bind (callable false) f s = (Outcome.fault, s) := rfl

theorem mainRest_outcome {σ : Type} (S : Sys σ) (r : Runtime) (s : State σ) :
    (mainRest S r s).1 = Outcome.ret 0 ∨ (mainRest S r s).1 = Outcome.fault := by
  rcases r with ⟨d, c, g⟩
  rcases g with _ | ⟨⟨_ | _⟩⟩ <;>
    simp [mainRest, bind_eq, pure_eq, printf, Prog.bind_emit, Prog.bind_deref_some,
      Prog.bind_deref_none, Prog.bind_callable_true, Prog.bind_callable_false,
      Prog.bind_callWrapper, Prog.pure_apply]

theorem mainRest_eq {σ : Type} (S : Sys σ) (r : Runtime) (s : State σ)
    (h : r.first_gpu_env.any Env.dump_fn = true) :
    mainRest S r s = (Outcome.ret 0, mainAfter S s) := by
  rcases r with ⟨d, c, g⟩
  rcases g with _ | ⟨⟨_ | _⟩⟩ <;> simp at h
  simp [mainRest, bind_eq, pure_eq, printf, Prog.bind_emit, Prog.bind_deref_some,
    Prog.bind_callable_true, Prog.bind_callWrapper, Prog.pure_apply, mainAfter]

theorem mainRest_null {σ : Type} (S : Sys σ) (r : Runtime) (s : State σ)
    (h : r.first_gpu_env = none) :
    mainRest S r s = (Outcome.fault,
      (s.log (Event.stdout Msg.separator)).log (Event.stdout Msg.executingOnGPU)) := by
  simp [mainRest, bind_eq, printf, Prog.bind_emit, h, Prog.bind_deref_none]

theorem main_eq_of_cpu {σ : Type} (S : Sys σ) (s : State σ) (r : Runtime)
    (h : callRet S Call.create_numba_oneapi_runtime s ≠ S.NUMBA_ONEAPI_FAILURE)
    (hr : S.rt (callState S Call.create_numba_oneapi_runtime s).sys = some r)
    (hd : r.dump_fn = true) (hc : r.first_cpu_env.any Env.dump_fn = true) :
    main S s = Prog.bind (buildAndExecuteKernel S execution_ty.ON_CPU)
      (fun _ => mainRest S r) (mainBefore S s) := by
  rcases r with ⟨d, c, g⟩
  rcases c with _ | ⟨⟨_ | _⟩⟩ <;> simp at hc
  simp only at hd
  subst hd
  simp only [main, bind_eq, pure_eq, Prog.bind_callWrapper, h, if_false, printf, Prog.bind_emit,
    mainBefore, Prog.bind_pure, Prog.bind_readRt, hr, Prog.bind_deref_some,
    Prog.bind_callable_true]

theorem main_fault_of_invalid {σ : Type} (S : Sys σ) (s : State σ)
    (h : callRet S Call.create_numba_oneapi_runtime s ≠ S.NUMBA_ONEAPI_FAILURE)
    (hv : (S.rt (callState S Call.create_numba_oneapi_runtime s).sys).any (fun r =>
      r.dump_fn && r.first_cpu_env.any Env.dump_fn) = false) :
    (main S s).1 = Outcome.fault := by
  rcases hr : S.rt (callState S Call.create_numba_oneapi_runtime s).sys with _ | ⟨d, c, g⟩
  · simp only [main, bind_eq, pure_eq, Prog.bind_callWrapper, h, if_false, Prog.bind_pure,
      Prog.bind_readRt, hr, Prog.bind_deref_none]
  · rw [hr] at hv
    rcases d with _ | _
    · simp only [main, bind_eq, pure_eq, Prog.bind_callWrapper, h, if_false, Prog.bind_pure,
        Prog.bind_readRt, hr, Prog.bind_deref_some, Prog.bind_callable_false]
    · rcases c with _ | ⟨⟨_ | _⟩⟩ <;> simp at hv <;>
        simp only [main, bind_eq, pure_eq, Prog.bind_callWrapper, h, if_false, Prog.bind_pure,
          Prog.bind_readRt, hr, Prog.bind_deref_some, Prog.bind_deref_none, printf,
          Prog.bind_emit, Prog.bind_callable_true, Prog.bind_callable_false]

theorem main_outcome_of_ne {σ : Type} (S : Sys σ) (s : State σ)
    (h : callRet S Call.create_numba_oneapi_runtime s ≠ S.NUMBA_ONEAPI_FAILURE) :
    (main S s).1 = Outcome.ret 0 ∨ (main S s).1 = Outcome.fault ∨
      ∃ n, (main S s).1 = Outcome.exit n := by
  by_cases hv : (S.rt (callState S Call.create_numba_oneapi_runtime s).sys).any (fun r =>
      r.dump_fn && r.first_cpu_env.any Env.dump_fn) = false
  · exact Or.inr (Or.inl (main_fault_of_invalid S s h hv))
  · rcases hr : S.rt (callState S Call.create_numba_oneapi_runtime s).sys with _ | r
    · simp [hr] at hv
    · simp only [hr, Option.any_some, Bool.and_eq_false_imp, not_forall,
        Bool.not_eq_false] at hv
      obtain ⟨hd, hc⟩ := hv
      rw [main_eq_of_cpu S s r h hr hd hc]
      rcases bind_outcome (buildAndExecuteKernel S execution_ty.ON_CPU)
        (fun _ => mainRest S r) (mainBefore S s) with
        ⟨a, s1, _, h2⟩ | ⟨n, s1, _, h2⟩ | ⟨s1, _, h2⟩
      · rw [h2]
        rcases mainRest_outcome S r s1 with h3 | h3
        · exact Or.inl h3
        · exact Or.inr (Or.inl h3)
      · rw [h2]
        exact Or.inr (Or.inr ⟨n, rfl⟩)
      · rw [h2]
        exact Or.inr (Or.inl rfl)

theorem returns_of_all_ok {σ : Type} (S : Sys σ) (ex : execution_ty) (s : State σ)
    (g : Nat → F32) (hm : ∀ n x, (S.malloc n x).1 = some g)
    (hc : ∀ c h x, (S.call c h x).1 = 0) (hd : ∀ c h x, (S.call c h x).2.1 = initA) :
    (buildAndExecuteKernel S ex s).1 = Outcome.ret () := by
  have hok : ∀ n t, mallocOk S n t = true := fun n t => by simp [mallocOk, hm]
  have hret : ∀ c t, callRet S c t = 0 := fun c t => hc _ _ _
  obtain ⟨heq, hmA, _, hmC, _⟩ := buildAndExecuteKernel_eq S ex s (hok _ _) (hok _ _) (hok _ _)
  have hds := deviceSteps_eq S (selectEnv ex) (inputState S s)
  simp only [hret, and_self, not_true_eq_false, if_false] at hds
  rw [heq, Prog.bind_ret _ _ _ _ _ hds]
  have hA9 : (callState S (Call.read_numba_oneapi_mem_buffer_from_device (selectEnv ex) 0 true 0
      datasize HostPtr.C) (callState S (Call.create_numba_oneapi_kernel (selectEnv ex)
        KernelName.vecadd) (callState S (Call.build_numba_oneapi_program (selectEnv ex))
        (callState S (Call.create_numba_oneapi_program_from_source (selectEnv ex) 1
          Source.programSource) (callState S (Call.write_numba_oneapi_mem_buffer_to_device
          (selectEnv ex) 1 true 0 datasize HostPtr.B) (callState S
          (Call.write_numba_oneapi_mem_buffer_to_device (selectEnv ex) 0 true 0 datasize HostPtr.A)
          (callState S (Call.create_numba_oneapi_rw_mem_buffer (selectEnv ex) datasize 2)
          (callState S (Call.create_numba_oneapi_rw_mem_buffer (selectEnv ex) datasize 1)
          (callState S (Call.create_numba_oneapi_rw_mem_buffer (selectEnv ex) datasize 0)
          (inputState S s)))))))))).mem HostPtr.A = initA := by
    simp only [callState_read_mem_C]
    simp [callState_mem_of_not_read, Call.readSize, Function.update, hmA]
  have hC9 : (callState S (Call.read_numba_oneapi_mem_buffer_from_device (selectEnv ex) 0 true 0
      datasize HostPtr.C) (callState S (Call.create_numba_oneapi_kernel (selectEnv ex)
        KernelName.vecadd) (callState S (Call.build_numba_oneapi_program (selectEnv ex))
        (callState S (Call.create_numba_oneapi_program_from_source (selectEnv ex) 1
          Source.programSource) (callState S (Call.write_numba_oneapi_mem_buffer_to_device
          (selectEnv ex) 1 true 0 datasize HostPtr.B) (callState S
          (Call.write_numba_oneapi_mem_buffer_to_device (selectEnv ex) 0 true 0 datasize HostPtr.A)
          (callState S (Call.create_numba_oneapi_rw_mem_buffer (selectEnv ex) datasize 2)
          (callState S (Call.create_numba_oneapi_rw_mem_buffer (selectEnv ex) datasize 1)
          (callState S (Call.create_numba_oneapi_rw_mem_buffer (selectEnv ex) datasize 0)
          (inputState S s)))))))))).mem HostPtr.C = initA := by
    simp only [callState_read_mem_C, hd]
    simp only [callState_mem_of_not_read, Call.readSize, Function.update]
    simp only [eq_rec_constant, dite_eq_ite, if_true]
    exact hostOverwrite_full _ _ initA_length hmC
  rw [Prog.bind_ret _ _ _ _ _ (validate_pass _ (by rw [hC9, initA_length])
    (by rw [hA9, initA_length]) (by rw [hC9, hA9]; exact firstMismatch_initA))]
  obtain ⟨s1, hcl, _⟩ := cleanup_eq S ((callState S (Call.read_numba_oneapi_mem_buffer_from_device
      (selectEnv ex) 0 true 0
      datasize HostPtr.C) (callState S (Call.create_numba_oneapi_kernel (selectEnv ex)
        KernelName.vecadd) (callState S (Call.build_numba_oneapi_program (selectEnv ex))
        (callState S (Call.create_numba_oneapi_program_from_source (selectEnv ex) 1
          Source.programSource) (callState S (Call.write_numba_oneapi_mem_buffer_to_device
          (selectEnv ex) 1 true 0 datasize HostPtr.B) (callState S
          (Call.write_numba_oneapi_mem_buffer_to_device (selectEnv ex) 0 true 0 datasize HostPtr.A)
          (callState S (Call.create_numba_oneapi_rw_mem_buffer (selectEnv ex) datasize 2)
          (callState S (Call.create_numba_oneapi_rw_mem_buffer (selectEnv ex) datasize 1)
          (callState S (Call.create_numba_oneapi_rw_mem_buffer (selectEnv ex) datasize 0)
          (inputState S s)))))))))).log (Event.stdout Msg.resultsMatch))
  rw [hcl]

theorem okSys_call_data (c : Call) (h : List F32) (u : Unit) :
    (okSys.call c h u).2.1 = initA :=
  call_scripted_data (-1) (some (fun _ => F32.nan)) (fun _ => 0) initA c h u

theorem noGpuSys_call_data (c : Call) (h : List F32) (u : Unit) :
    (noGpuSys.call c h u).2.1 = initA :=
  call_scripted_data (-1) (some (fun _ => F32.nan)) (fun _ => 0) initA c h u

theorem pair_of_fst {α β : Type} (p : α × β) (a : α) (h : p.1 = a) : p = (a, p.2) := by
  cases p
  cases h
  rfl

/-- C9 does not hold as stated: in `noGpuSys` runtime creation returns 0, which is not
`NUMBA_ONEAPI_FAILURE`, and `buildAndExecuteKernel` returns normally, but `main` reaches
line 164 with `rt->first_gpu_env` `NULL` and crashes there: it does not return 0 and
never calls `destroy_numba_oneapi_runtime`. -/
theorem main_crashes_on_null_gpu_environment :
    callRet noGpuSys Call.create_numba_oneapi_runtime (State.init ()) ≠
      noGpuSys.NUMBA_ONEAPI_FAILURE ∧
    (buildAndExecuteKernel noGpuSys execution_ty.ON_CPU
      (mainBefore noGpuSys (State.init ()))).1 = Outcome.ret () ∧
    (main noGpuSys (State.init ())).1 = Outcome.fault ∧
    (main noGpuSys (State.init ())).1 ≠ Outcome.ret 0 ∧
    Call.destroy_numba_oneapi_runtime ∉ wrapperCalls (main noGpuSys (State.init ())).2.trace := by
  have hne : callRet noGpuSys Call.create_numba_oneapi_runtime (State.init ()) ≠
      noGpuSys.NUMBA_ONEAPI_FAILURE := by decide
  have hrun : (buildAndExecuteKernel noGpuSys execution_ty.ON_CPU
      (mainBefore noGpuSys (State.init ()))).1 = Outcome.ret () :=
    returns_of_all_ok noGpuSys execution_ty.ON_CPU _ (fun _ => F32.nan) (fun _ _ => rfl)
      (fun _ _ _ => rfl) noGpuSys_call_data
  have hmain : main noGpuSys (State.init ()) = (Outcome.fault,
      ((buildAndExecuteKernel noGpuSys execution_ty.ON_CPU
        (mainBefore noGpuSys (State.init ()))).2.log (Event.stdout Msg.separator)).log
        (Event.stdout Msg.executingOnGPU)) := by
    rw [main_eq_of_cpu noGpuSys (State.init ())
      { dump_fn := true, first_cpu_env := some { dump_fn := true }, first_gpu_env := none }
      hne rfl rfl rfl,
      Prog.bind_ret _ _ _ _ _ (pair_of_fst _ _ hrun)]
    exact mainRest_null _ _ _ rfl
  obtain ⟨t, ht, hp⟩ := buildAndExecuteKernel_path noGpuSys execution_ty.ON_CPU
    (mainBefore noGpuSys (State.init ()))
  rw [hrun] at hp
  refine ⟨hne, hrun, by rw [hmain], by rw [hmain]; simp, ?_⟩
  rw [hmain]
  simp only [log_trace]
  rw [ht]
  simp only [mainBefore, callState_trace, log_trace, State.init, List.nil_append]
  cases hp
  simp [mallocEvents, deviceEvents, createEvents, writeEvents, programEvents, kernelEvent,
    readEvent, cleanupEvents, wrapperCalls, Event.toCall]

/-- C9 (amended): let `NUMBA_ONEAPI_FAILURE` be nonzero.  `main` returns
`NUMBA_ONEAPI_FAILURE` if and only if runtime creation returns it, and then runtime
creation is its only call.  For every other code of runtime creation, if the handles
`rt`, `rt->first_cpu_env` and `rt->first_gpu_env` point at objects whose `dump_fn` can be
called and `buildAndExecuteKernel` returns, `main` has run it once with `ON_CPU` between
the events of lines 151-158 and those of lines 161-170, no device call is given
`first_gpu_env`, `destroy_numba_oneapi_runtime` is called once, as the last wrapper
call, and `main` returns 0. -/
theorem main_returns_failure_iff_runtime_creation_fails {σ : Type} (S : Sys σ) (sys : σ)
    (hF : S.NUMBA_ONEAPI_FAILURE ≠ 0) :
    ((main S (State.init sys)).1 = Outcome.ret S.NUMBA_ONEAPI_FAILURE ↔
      callRet S Call.create_numba_oneapi_runtime (State.init sys) = S.NUMBA_ONEAPI_FAILURE) ∧
    (callRet S Call.create_numba_oneapi_runtime (State.init sys) = S.NUMBA_ONEAPI_FAILURE →
      (main S (State.init sys)).2.trace =
        [Event.call Call.create_numba_oneapi_runtime S.NUMBA_ONEAPI_FAILURE]) ∧
    (callRet S Call.create_numba_oneapi_runtime (State.init sys) ≠ S.NUMBA_ONEAPI_FAILURE →
      handlesValid S (callState S Call.create_numba_oneapi_runtime (State.init sys)) = true →
      (buildAndExecuteKernel S execution_ty.ON_CPU (mainBefore S (State.init sys))).1 =
          Outcome.ret () →
        main S (State.init sys) = (Outcome.ret 0, mainAfter S
          (buildAndExecuteKernel S execution_ty.ON_CPU (mainBefore S (State.init sys))).2) ∧
        (∃ r0 r1 r2 r3 r4 t,
          BekPath env_t.first_cpu_env (Outcome.ret ()) t ∧
          (main S (State.init sys)).2.trace =
            [Event.call Call.create_numba_oneapi_runtime r0, Event.call Call.dump_fn_runtime r1,
              Event.stdout Msg.separator, Event.stdout Msg.executingOnCPU,
              Event.call (Call.dump_fn_env env_t.first_cpu_env) r2] ++ t ++
            [Event.stdout Msg.separator, Event.stdout Msg.executingOnGPU,
              Event.call (Call.dump_fn_env env_t.first_gpu_env) r3, Event.stdout Msg.separator,
              Event.call Call.destroy_numba_oneapi_runtime r4]) ∧
        (∀ c ∈ wrapperCalls (main S (State.init sys)).2.trace,
          c.envArg ≠ some env_t.first_gpu_env) ∧
        (wrapperCalls (main S (State.init sys)).2.trace).count
          Call.destroy_numba_oneapi_runtime = 1 ∧
        (wrapperCalls (main S (State.init sys)).2.trace).getLast? =
          some Call.destroy_numba_oneapi_runtime) := by
  refine ⟨⟨fun hret => ?_, fun h => ?_⟩, fun h => ?_, fun h hv hrun => ?_⟩
  · by_contra hne
    rcases main_outcome_of_ne S _ hne with h2 | h2 | ⟨n, h2⟩
    · rw [h2] at hret
      simp only [Outcome.ret.injEq] at hret
      exact hF hret.symm
    · rw [h2] at hret
      cases hret
    · rw [h2] at hret
      cases hret
  · rw [main_failure_eq S _ h]
  · rw [main_failure_eq S _ h]
    simp only [callState_trace, h]
    rfl
  · generalize hs2 : (buildAndExecuteKernel S execution_ty.ON_CPU
      (mainBefore S (State.init sys))).2 = s2
    have hrun2 : buildAndExecuteKernel S execution_ty.ON_CPU (mainBefore S (State.init sys)) =
        (Outcome.ret (), s2) := by
      rw [← hs2]
      exact pair_of_fst _ _ hrun
    rcases hr : S.rt (callState S Call.create_numba_oneapi_runtime (State.init sys)).sys with
      _ | r
    · simp [handlesValid, hr] at hv
    simp only [handlesValid, hr, Option.any_some, Bool.and_eq_true] at hv
    obtain ⟨⟨hd, hc⟩, hg⟩ := hv
    have hmain : main S (State.init sys) = (Outcome.ret 0, mainAfter S s2) := by
      rw [main_eq_of_cpu S _ r h hr hd hc, Prog.bind_ret _ _ _ _ _ hrun2]
      exact mainRest_eq S r s2 hg
    obtain ⟨t, ht, hp⟩ := buildAndExecuteKernel_path S execution_ty.ON_CPU
      (mainBefore S (State.init sys))
    rw [hrun2] at ht hp
    simp only at ht hp
    have htrace : (mainAfter S s2).trace =
        [Event.call Call.create_numba_oneapi_runtime
            (callRet S Call.create_numba_oneapi_runtime (State.init sys)),
          Event.call Call.dump_fn_runtime (callRet S Call.dump_fn_runtime
            (callState S Call.create_numba_oneapi_runtime (State.init sys))),
          Event.stdout Msg.separator, Event.stdout Msg.executingOnCPU,
          Event.call (Call.dump_fn_env env_t.first_cpu_env)
            (callRet S (Call.dump_fn_env env_t.first_cpu_env)
              (((callState S Call.dump_fn_runtime
                (callState S Call.create_numba_oneapi_runtime (State.init sys))).log
                  (Event.stdout Msg.separator)).log (Event.stdout Msg.executingOnCPU)))] ++ t ++
        [Event.stdout Msg.separator, Event.stdout Msg.executingOnGPU,
          Event.call (Call.dump_fn_env env_t.first_gpu_env)
            (callRet S (Call.dump_fn_env env_t.first_gpu_env)
              ((s2.log (Event.stdout Msg.separator)).log (Event.stdout Msg.executingOnGPU))),
          Event.stdout Msg.separator,
          Event.call Call.destroy_numba_oneapi_runtime
            (callRet S Call.destroy_numba_oneapi_runtime
              ((callState S (Call.dump_fn_env env_t.first_gpu_env)
                ((s2.log (Event.stdout Msg.separator)).log (Event.stdout Msg.executingOnGPU))).log
                (Event.stdout Msg.separator)))] := by
      simp only [mainAfter, callState_trace, log_trace, ht, mainBefore, State.init,
        List.nil_append, List.append_assoc, List.cons_append]
    rw [hmain]
    refine ⟨rfl, ⟨_, _, _, _, _, t, hp, htrace⟩, ?_, ?_, ?_⟩
    all_goals
      simp only [htrace]
      cases hp
      simp [mallocEvents, deviceEvents, createEvents, writeEvents, programEvents, kernelEvent,
        readEvent, cleanupEvents, wrapperCalls, Event.toCall, Call.envArg, selectEnv]

/-- An instance of C9 (amended): with `NUMBA_ONEAPI_FAILURE = -1`, in `noRuntimeSys`
runtime creation returns -1 and `main` returns -1 after that one call; in `okSys` runtime
creation returns 0, the handles are valid, `buildAndExecuteKernel` returns, and `main`
returns 0 with `destroy_numba_oneapi_runtime` as its last wrapper call. -/
theorem main_returns_failure_iff_runtime_creation_fails_witness :
    (noRuntimeSys.NUMBA_ONEAPI_FAILURE ≠ 0 ∧
      (main noRuntimeSys (State.init ())).1 = Outcome.ret noRuntimeSys.NUMBA_ONEAPI_FAILURE ∧
      (main noRuntimeSys (State.init ())).2.trace =
        [Event.call Call.create_numba_oneapi_runtime noRuntimeSys.NUMBA_ONEAPI_FAILURE]) ∧
    (okSys.NUMBA_ONEAPI_FAILURE ≠ 0 ∧
      callRet okSys Call.create_numba_oneapi_runtime (State.init ()) ≠
        okSys.NUMBA_ONEAPI_FAILURE ∧
      handlesValid okSys (callState okSys Call.create_numba_oneapi_runtime (State.init ())) =
        true ∧
      (buildAndExecuteKernel okSys execution_ty.ON_CPU (mainBefore okSys (State.init ()))).1 =
        Outcome.ret () ∧
      (main okSys (State.init ())).1 = Outcome.ret 0 ∧
      (wrapperCalls (main okSys (State.init ())).2.trace).count
        Call.destroy_numba_oneapi_runtime = 1 ∧
      (wrapperCalls (main okSys (State.init ())).2.trace).getLast? =
        some Call.destroy_numba_oneapi_runtime) :=
  ⟨⟨by decide,
    (main_returns_failure_iff_runtime_creation_fails noRuntimeSys () (by decide)).1.mpr rfl,
    (main_returns_failure_iff_runtime_creation_fails noRuntimeSys () (by decide)).2.1 rfl⟩,
   by decide, by decide, rfl,
    returns_of_all_ok okSys execution_ty.ON_CPU _ (fun _ => F32.nan) (fun _ _ => rfl)
      (fun _ _ _ => rfl) okSys_call_data,
    congrArg Prod.fst ((main_returns_failure_iff_runtime_creation_fails okSys () (by decide)).2.2
      (by decide) rfl (returns_of_all_ok okSys execution_ty.ON_CPU _ (fun _ => F32.nan)
        (fun _ _ => rfl) (fun _ _ _ => rfl) okSys_call_data)).1,
    ((main_returns_failure_iff_runtime_creation_fails okSys () (by decide)).2.2
      (by decide) rfl (returns_of_all_ok okSys execution_ty.ON_CPU _ (fun _ => F32.nan)
        (fun _ _ => rfl) (fun _ _ _ => rfl) okSys_call_data)).2.2.2⟩

end VectorAdd
